import Mathlib

/-!
Shallow embedding of the S32K144 FlexCAN message-buffer driver
(src/lib/driver/can/can.c, src/lib/driver/can/can.h) and proofs about it.

Machine integers are modelled as Nat; all register words written by the
driver are below 2 to the 32nd by construction, and the one place where the
C code can wrap around a uint32 subtraction (the prescaler computation in
CAN_CalculateTiming) is modelled with an explicit mod 2 to the 32nd.

The register-layout header can_reg.h is not part of the repository snapshot;
the message-buffer CS-field masks used below are the values recorded in the
commented-out duplicate definitions in can.h (lines 73-77) and in the
FlexCAN mailbox layout the specification describes (standard IDs at bits
18-28 of the ID word, extended IDs at bits 0-28, DLC at bits 16-19 of the
CS word, IDE bit 21, RTR bit 20, SRR bit 22, CODE at bits 24-27).
-/

namespace CanDriver

/-- status_t from can.h. -/
inductive status_t where
  | STATUS_SUCCESS
  | STATUS_ERROR
  | STATUS_BUSY
  | STATUS_TIMEOUT
  | STATUS_INVALID_PARAM
  | STATUS_NOT_INITIALIZED
deriving DecidableEq, Repr

export status_t (STATUS_SUCCESS STATUS_ERROR STATUS_BUSY STATUS_TIMEOUT STATUS_INVALID_PARAM STATUS_NOT_INITIALIZED)

/-- can_id_type_t from can.h. -/
inductive can_id_type_t where
  | CAN_ID_STD
  | CAN_ID_EXT
deriving DecidableEq, Repr

export can_id_type_t (CAN_ID_STD CAN_ID_EXT)

/-- can_frame_type_t from can.h. -/
inductive can_frame_type_t where
  | CAN_FRAME_DATA
  | CAN_FRAME_REMOTE
deriving DecidableEq, Repr

export can_frame_type_t (CAN_FRAME_DATA CAN_FRAME_REMOTE)

/-- can_message_t from can.h; data models the uint8_t data[8] array. -/
structure can_message_t where
  id : Nat
  idType : can_id_type_t
  frameType : can_frame_type_t
  dataLength : Nat
  data : List Nat
deriving DecidableEq, Repr

/-- can_timing_config_t from can.h. -/
structure can_timing_config_t where
  propSeg : Nat
  phaseSeg1 : Nat
  phaseSeg2 : Nat
  rJumpWidth : Nat
  preDiv : Nat
deriving DecidableEq, Repr

/- Message buffer field constants (can.h; see header comment about can_reg.h). -/

def CAN_CS_CODE_SHIFT : Nat := 24
def CAN_CS_CODE_MASK : Nat := 0x0F000000
def CAN_WMBn_CS_IDE_MASK : Nat := 0x00200000
def CAN_WMBn_CS_SRR_MASK : Nat := 0x00400000
def CAN_WMBn_CS_RTR_MASK : Nat := 0x00100000
def CAN_WMBn_CS_DLC_SHIFT : Nat := 16
def CAN_WMBn_CS_DLC_MASK : Nat := 0x000F0000

def CAN_CS_CODE_TX_INACTIVE : Nat := 0x08
def CAN_CS_CODE_TX_ABORT : Nat := 0x09
def CAN_CS_CODE_TX_DATA : Nat := 0x0C
def CAN_CS_CODE_RX_INACTIVE : Nat := 0x00
def CAN_CS_CODE_RX_EMPTY : Nat := 0x04
def CAN_CS_CODE_RX_FULL : Nat := 0x02

def CAN_ID_STD_SHIFT : Nat := 18
def CAN_ID_STD_MASK : Nat := 0x1FFC0000
def CAN_ID_EXT_SHIFT : Nat := 0
def CAN_ID_EXT_MASK : Nat := 0x1FFFFFFF

def CAN_MB_COUNT : Nat := 32
def CAN_INSTANCE_COUNT : Nat := 3
def CAN_MAX_DATA_LENGTH : Nat := 8
def CAN_TX_MB_START : Nat := 8
def CAN_TX_MB_COUNT : Nat := 8
def CAN_RX_MB_START : Nat := 16
def CAN_RX_MB_COUNT : Nat := 16

/-- MSG_BUF_SIZE from can.c: 4 words per message buffer (CS, ID, DATA0, DATA1). -/
def MSG_BUF_SIZE : Nat := 4

/--
CAN_CalculateTiming from can.c (lines 594-629), translated literally.
The C subtraction `(canClockHz / (baudRate * numTq)) - 1U` is on uint32 and
wraps; it is modelled with mod 2 to the 32nd.  The C multiplication
`baudRate * numTq` is likewise uint32.  Returns the status together with
the out-parameter contents (none when the function fails before writing).
Note the source first stores the computed prescaler and then overwrites it
with 0 (`timing->preDiv = 0U;`).
-/
def CAN_CalculateTiming (canClockHz baudRate : Nat) :
    status_t × Option can_timing_config_t :=
  if baudRate = 0 ∨ canClockHz = 0 then
    (STATUS_INVALID_PARAM, none)
  else
    let numTq := 16
    let preDiv := (canClockHz / ((baudRate * numTq) % 4294967296) + 4294967295) % 4294967296
    if preDiv > 255 then
      let numTq := 8
      let preDiv := (canClockHz / ((baudRate * numTq) % 4294967296) + 4294967295) % 4294967296
      if preDiv > 255 then
        (STATUS_INVALID_PARAM, none)
      else
        (STATUS_SUCCESS, some { propSeg := 6, phaseSeg1 := 3, phaseSeg2 := 3,
                                rJumpWidth := 3, preDiv := 0 })
    else
      (STATUS_SUCCESS, some { propSeg := 6, phaseSeg1 := 3, phaseSeg2 := 3,
                              rJumpWidth := 3, preDiv := 0 })

/-- A register write performed by the driver, in program order. -/
inductive RegWrite where
  | IFLAG1 (v : Nat)
  | RAMn (idx : Nat) (v : Nat)
deriving DecidableEq, Repr

/-- The driver's private per-instance state: s_canInitialized from can.c. -/
structure DriverState where
  initialized : Nat → Bool

/-- First data word written by CAN_Send (can.c lines 220-223): bytes 0-3 packed big-endian. -/
def sendDataWord0 (m : can_message_t) : Nat :=
  (m.data.getD 0 0 <<< 24) ||| (m.data.getD 1 0 <<< 16) |||
  (m.data.getD 2 0 <<< 8) ||| m.data.getD 3 0

/-- Second data word written by CAN_Send (can.c lines 225-228): bytes 4-7 packed big-endian. -/
def sendDataWord1 (m : can_message_t) : Nat :=
  (m.data.getD 4 0 <<< 24) ||| (m.data.getD 5 0 <<< 16) |||
  (m.data.getD 6 0 <<< 8) ||| m.data.getD 7 0

/-- ID word written by CAN_Send (can.c lines 231-235). -/
def sendIdWord (m : can_message_t) : Nat :=
  if m.idType = CAN_ID_STD then
    (m.id <<< CAN_ID_STD_SHIFT) &&& CAN_ID_STD_MASK
  else
    (m.id <<< CAN_ID_EXT_SHIFT) &&& CAN_ID_EXT_MASK

/-- CS word written by CAN_Send (can.c lines 239-252). -/
def sendCsWord (m : can_message_t) : Nat :=
  let cs := (CAN_CS_CODE_TX_DATA <<< CAN_CS_CODE_SHIFT) |||
            (m.dataLength <<< CAN_WMBn_CS_DLC_SHIFT)
  let cs := if m.idType = CAN_ID_EXT then cs ||| CAN_WMBn_CS_IDE_MASK else cs
  let cs := if m.idType = CAN_ID_STD then cs ||| CAN_WMBn_CS_SRR_MASK else cs
  let cs := if m.frameType = CAN_FRAME_REMOTE then cs ||| CAN_WMBn_CS_RTR_MASK else cs
  cs

/--
CAN_Send from can.c (lines 189-257).  `message = none` models a NULL
message pointer.  Returns the status and the list of register writes the
call performs, in program order.
-/
def CAN_Send (st : DriverState) (inst mbIndex : Nat)
    (message : Option can_message_t) : status_t × List RegWrite :=
  match message with
  | none => (STATUS_INVALID_PARAM, [])
  | some m =>
    if inst ≥ CAN_INSTANCE_COUNT then
      (STATUS_INVALID_PARAM, [])
    else if st.initialized inst = false then
      (STATUS_NOT_INITIALIZED, [])
    else if mbIndex < CAN_TX_MB_START ∨ mbIndex ≥ CAN_TX_MB_START + CAN_TX_MB_COUNT then
      (STATUS_INVALID_PARAM, [])
    else if m.dataLength > CAN_MAX_DATA_LENGTH then
      (STATUS_INVALID_PARAM, [])
    else
      let mbOffset := mbIndex * MSG_BUF_SIZE
      (STATUS_SUCCESS,
       [RegWrite.IFLAG1 (1 <<< mbIndex),
        RegWrite.RAMn (mbOffset + 2) (sendDataWord0 m),
        RegWrite.RAMn (mbOffset + 3) (sendDataWord1 m),
        RegWrite.RAMn (mbOffset + 1) (sendIdWord m),
        RegWrite.RAMn (mbOffset + 0) (sendCsWord m)])

/-- can_rx_filter_t from can.h. -/
structure can_rx_filter_t where
  id : Nat
  mask : Nat
  idType : can_id_type_t
deriving DecidableEq, Repr

/--
The hardware registers of one CAN controller that the driver reads and
writes: IFLAG1, IMASK1, mailbox RAM (RAMn), the individual mask registers
(RXIMR), the free-running timer, MCR, CTRL1, RXMGMASK and ECR.
-/
structure CAN_Hw where
  mcr : Nat
  ctrl1 : Nat
  iflag1 : Nat
  imask1 : Nat
  rxmgmask : Nat
  ecr : Nat
  timer : Nat
  ram : Nat → Nat
  rximr : Nat → Nat

/-- Pointwise function update used to model writes into RAMn / RXIMR arrays. -/
def updFun (f : Nat → Nat) (i v : Nat) : Nat → Nat :=
  fun j => if j = i then v else f j

/--
Write-1-to-clear semantics of the IFLAG1 register (see the can.c comment
`This reg is w1c`): storing v clears exactly the flag bits whose
corresponding bits of v are set.
-/
def w1cIflag1 (old v : Nat) : Nat :=
  old &&& (0xFFFFFFFF ^^^ (v &&& 0xFFFFFFFF))

/-- Message decoding performed by CAN_Receive (can.c lines 333-356). -/
def receiveDecode (cs idw data0 data1 : Nat) : can_message_t :=
  { idType := if cs &&& CAN_WMBn_CS_IDE_MASK ≠ 0 then CAN_ID_EXT else CAN_ID_STD
    id := if cs &&& CAN_WMBn_CS_IDE_MASK ≠ 0 then
            (idw &&& CAN_ID_EXT_MASK) >>> CAN_ID_EXT_SHIFT
          else
            (idw &&& CAN_ID_STD_MASK) >>> CAN_ID_STD_SHIFT
    frameType := if cs &&& CAN_WMBn_CS_RTR_MASK ≠ 0 then CAN_FRAME_REMOTE else CAN_FRAME_DATA
    dataLength := (cs &&& CAN_WMBn_CS_DLC_MASK) >>> CAN_WMBn_CS_DLC_SHIFT
    data := [(data0 >>> 24) &&& 0xFF, (data0 >>> 16) &&& 0xFF,
             (data0 >>> 8) &&& 0xFF, data0 &&& 0xFF,
             (data1 >>> 24) &&& 0xFF, (data1 >>> 16) &&& 0xFF,
             (data1 >>> 8) &&& 0xFF, data1 &&& 0xFF] }

/--
CAN_Receive from can.c (lines 295-372).  `msgIn` is the prior contents of
the caller's out-parameter (none models a NULL pointer); the third
component of the result is its contents when the call returns.  The second
component lists the register writes performed (the successful path writes
the IFLAG1 mailbox mask twice, as the source does).
-/
def CAN_Receive (st : DriverState) (hw : CAN_Hw) (inst mbIndex : Nat)
    (msgIn : Option can_message_t) : status_t × List RegWrite × Option can_message_t :=
  match msgIn with
  | none => (STATUS_INVALID_PARAM, [], none)
  | some mIn =>
    if inst ≥ CAN_INSTANCE_COUNT then
      (STATUS_INVALID_PARAM, [], some mIn)
    else if st.initialized inst = false then
      (STATUS_NOT_INITIALIZED, [], some mIn)
    else if mbIndex < CAN_RX_MB_START ∨ mbIndex ≥ CAN_MB_COUNT then
      (STATUS_INVALID_PARAM, [], some mIn)
    else
      let mbMask := 1 <<< mbIndex
      let mbOffset := mbIndex * MSG_BUF_SIZE
      if hw.iflag1 &&& mbMask = 0 then
        (STATUS_ERROR, [], some mIn)
      else
        let cs := hw.ram (mbOffset + 0)
        let idw := hw.ram (mbOffset + 1)
        let data0 := hw.ram (mbOffset + 2)
        let data1 := hw.ram (mbOffset + 3)
        (STATUS_SUCCESS, [RegWrite.IFLAG1 mbMask, RegWrite.IFLAG1 mbMask],
         some (receiveDecode cs idw data0 data1))

/--
The bounded busy-wait of CAN_SendBlocking / CAN_ReceiveBlocking: up to
`fuel` iterations testing the (static) IFLAG1 value against the mailbox
mask; true iff the flag test succeeds within the bound.
-/
def pollFlag (iflag1 mbMask : Nat) : Nat → Bool
  | 0 => false
  | fuel + 1 => if iflag1 &&& mbMask ≠ 0 then true else pollFlag iflag1 mbMask fuel

/--
CAN_ReceiveBlocking from can.c (lines 377-405).  Polls the pending flag up
to timeoutMs * 1000 times, then delegates to CAN_Receive; note the source
performs no mailbox-index validation of its own.
-/
def CAN_ReceiveBlocking (st : DriverState) (hw : CAN_Hw) (inst mbIndex : Nat)
    (msgIn : Option can_message_t) (timeoutMs : Nat) :
    status_t × List RegWrite × Option can_message_t :=
  match msgIn with
  | none => (STATUS_INVALID_PARAM, [], none)
  | some mIn =>
    if inst ≥ CAN_INSTANCE_COUNT then
      (STATUS_INVALID_PARAM, [], some mIn)
    else if st.initialized inst = false then
      (STATUS_NOT_INITIALIZED, [], some mIn)
    else if pollFlag hw.iflag1 (1 <<< mbIndex) (timeoutMs * 1000) then
      CAN_Receive st hw inst mbIndex msgIn
    else
      (STATUS_TIMEOUT, [], some mIn)

/--
CAN_SendBlocking from can.c (lines 262-290): delegates to CAN_Send, then
polls the pending flag up to timeoutMs * 1000 times, clearing it on
completion.
-/
def CAN_SendBlocking (st : DriverState) (hw : CAN_Hw) (inst mbIndex : Nat)
    (message : Option can_message_t) (timeoutMs : Nat) : status_t × List RegWrite :=
  let r := CAN_Send st inst mbIndex message
  if r.1 ≠ STATUS_SUCCESS then
    r
  else if pollFlag hw.iflag1 (1 <<< mbIndex) (timeoutMs * 1000) then
    (STATUS_SUCCESS, r.2 ++ [RegWrite.IFLAG1 (1 <<< mbIndex)])
  else
    (STATUS_TIMEOUT, r.2)

/--
CAN_ConfigRxFilter from can.c (lines 410-457): writes the mailbox ID word,
arms the mailbox with the RX-empty code (plus IDE for extended filters),
stores the caller's mask verbatim in the individual mask register RXIMR,
and enables the mailbox interrupt in IMASK1.
-/
def CAN_ConfigRxFilter (st : DriverState) (hw : CAN_Hw) (inst mbIndex : Nat)
    (filter : Option can_rx_filter_t) : status_t × CAN_Hw :=
  match filter with
  | none => (STATUS_INVALID_PARAM, hw)
  | some f =>
    if inst ≥ CAN_INSTANCE_COUNT then
      (STATUS_INVALID_PARAM, hw)
    else if st.initialized inst = false then
      (STATUS_NOT_INITIALIZED, hw)
    else if mbIndex < CAN_RX_MB_START ∨ mbIndex ≥ CAN_MB_COUNT then
      (STATUS_INVALID_PARAM, hw)
    else
      let mbOffset := mbIndex * MSG_BUF_SIZE
      let idw := if f.idType = CAN_ID_EXT then
                   (f.id <<< CAN_ID_EXT_SHIFT) &&& CAN_ID_EXT_MASK
                 else
                   (f.id <<< CAN_ID_STD_SHIFT) &&& CAN_ID_STD_MASK
      let cs := CAN_CS_CODE_RX_EMPTY <<< CAN_CS_CODE_SHIFT
      let cs := if f.idType = CAN_ID_EXT then cs ||| CAN_WMBn_CS_IDE_MASK else cs
      let hw := { hw with ram := updFun (updFun hw.ram (mbOffset + 1) idw) (mbOffset + 0) cs }
      let hw := { hw with rximr := updFun hw.rximr mbIndex f.mask }
      let hw := { hw with imask1 := hw.imask1 ||| (1 <<< mbIndex) }
      (STATUS_SUCCESS, hw)

/--
CAN_ConfigTxMailbox from can.c (lines 462-491): arms the mailbox as
inactive TX and enables its interrupt.
-/
def CAN_ConfigTxMailbox (st : DriverState) (hw : CAN_Hw) (inst mbIndex : Nat) :
    status_t × CAN_Hw :=
  if inst ≥ CAN_INSTANCE_COUNT then
    (STATUS_INVALID_PARAM, hw)
  else if st.initialized inst = false then
    (STATUS_NOT_INITIALIZED, hw)
  else if mbIndex < CAN_TX_MB_START ∨ mbIndex ≥ CAN_TX_MB_START + CAN_TX_MB_COUNT then
    (STATUS_INVALID_PARAM, hw)
  else
    let mbOffset := mbIndex * MSG_BUF_SIZE
    let hw := { hw with
      ram := updFun hw.ram (mbOffset + 0) (CAN_CS_CODE_TX_INACTIVE <<< CAN_CS_CODE_SHIFT)
    }
    (STATUS_SUCCESS, { hw with imask1 := hw.imask1 ||| (1 <<< mbIndex) })

/--
CAN_AbortTransmission from can.c (lines 546-562): validates only the
instance and mailbox ranges (there is no initialized-flag check in the
source) and writes the abort code to the mailbox CS word.
-/
def CAN_AbortTransmission (st : DriverState) (hw : CAN_Hw) (inst mbIndex : Nat) :
    status_t × CAN_Hw :=
  if inst ≥ CAN_INSTANCE_COUNT ∨ mbIndex ≥ CAN_MB_COUNT then
    (STATUS_INVALID_PARAM, hw)
  else
    let mbOffset := mbIndex * MSG_BUF_SIZE
    (STATUS_SUCCESS,
     { hw with ram := updFun hw.ram (mbOffset + 0) (CAN_CS_CODE_TX_ABORT <<< CAN_CS_CODE_SHIFT) })

/--
CAN_IsMbBusy from can.c (lines 567-589): validates only parameter ranges
(no initialized-flag check in the source) and reports whether the mailbox
CODE field differs from both inactive codes.
-/
def CAN_IsMbBusy (st : DriverState) (hw : CAN_Hw) (inst mbIndex : Nat)
    (isBusyPtr : Bool) : status_t × Option Bool :=
  if inst ≥ CAN_INSTANCE_COUNT ∨ mbIndex ≥ CAN_MB_COUNT ∨ isBusyPtr = false then
    (STATUS_INVALID_PARAM, none)
  else
    let mbOffset := mbIndex * MSG_BUF_SIZE
    let cs := hw.ram (mbOffset + 0)
    let code := (cs &&& CAN_CS_CODE_MASK) >>> CAN_CS_CODE_SHIFT
    (STATUS_SUCCESS,
     some (code ≠ CAN_CS_CODE_TX_INACTIVE ∧ code ≠ CAN_CS_CODE_RX_INACTIVE : Bool))

/- MCR / CTRL1 field constants.  The register header can_reg.h is not in
the repository snapshot; these are the FlexCAN control-register fields the
specification's controller state machine describes (freeze, halt,
freeze-acknowledge, soft-reset, module-disable, not-ready, self-reception
disable, RX-FIFO enable, MAXMB, and the CTRL1 timing fields). -/

def CAN_MCR_MDIS_MASK : Nat := 0x80000000
def CAN_MCR_FRZ_MASK : Nat := 0x40000000
def CAN_MCR_RFEN_MASK : Nat := 0x20000000
def CAN_MCR_HALT_MASK : Nat := 0x10000000
def CAN_MCR_NOTRDY_MASK : Nat := 0x08000000
def CAN_MCR_SOFTRST_MASK : Nat := 0x02000000
def CAN_MCR_FRZACK_MASK : Nat := 0x01000000
def CAN_MCR_SRXDIS_MASK : Nat := 0x00020000
def CAN_MCR_MAXMB_MASK : Nat := 0x0000007F
def CAN_MCR_MAXMB_SHIFT : Nat := 0
def CAN_CTRL1_PRESDIV_SHIFT : Nat := 24
def CAN_CTRL1_RJW_SHIFT : Nat := 22
def CAN_CTRL1_PSEG1_SHIFT : Nat := 19
def CAN_CTRL1_PSEG2_SHIFT : Nat := 16
def CAN_CTRL1_CLKSRC_MASK : Nat := 0x00002000
def CAN_CTRL1_LPB_MASK : Nat := 0x00001000
def CAN_CTRL1_SMP_SHIFT : Nat := 7
def CAN_CTRL1_LOM_MASK : Nat := 0x00000008
def CAN_CTRL1_PROPSEG_SHIFT : Nat := 0

/-- The C idiom `reg &= ~mask` on a 32-bit register. -/
def clearBits (x m : Nat) : Nat :=
  x &&& (0xFFFFFFFF ^^^ (m &&& 0xFFFFFFFF))

/-- can_clk_src_t; the enum lives in the register header that is not in
the snapshot, its members are those named by can.c / can.h. -/
inductive can_clk_src_t where
  | CAN_CLK_SRC_SOSCDIV2
  | CAN_CLK_SRC_BUSCLOCK
  | CAN_CLK_SRC_FIRCDIV2
  | CAN_CLK_SRC_SPLLDIV2
deriving DecidableEq, Repr

export can_clk_src_t (CAN_CLK_SRC_SOSCDIV2 CAN_CLK_SRC_BUSCLOCK CAN_CLK_SRC_FIRCDIV2 CAN_CLK_SRC_SPLLDIV2)

/-- can_mode_t from can.h. -/
inductive can_mode_t where
  | CAN_MODE_NORMAL
  | CAN_MODE_LOOPBACK
  | CAN_MODE_LISTEN_ONLY
deriving DecidableEq, Repr

export can_mode_t (CAN_MODE_NORMAL CAN_MODE_LOOPBACK CAN_MODE_LISTEN_ONLY)

/-- can_config_t from can.h. -/
structure can_config_t where
  inst : Nat
  clockSource : can_clk_src_t
  baudRate : Nat
  mode : can_mode_t
  enableSelfReception : Bool
  useRxFifo : Bool
deriving DecidableEq, Repr

/--
Outcomes of the three bounded busy-waits in the controller state machine:
whether the hardware acknowledges each transition within the bounded poll
(CAN_FREEZE_TIMEOUT iterations).  These bits are hardware-owned, so they
enter the model as an oracle rather than being computed from state.
-/
structure FreezeBehavior where
  freezeAck : Bool
  softResetDone : Bool
  freezeAckClears : Bool
  notReadyClears : Bool
deriving DecidableEq, Repr

/-- CAN_GetClockFrequency from can.c (lines 774-791). -/
def CAN_GetClockFrequency (clockSource : can_clk_src_t) : Nat :=
  match clockSource with
  | CAN_CLK_SRC_SOSCDIV2 => 4000000
  | CAN_CLK_SRC_BUSCLOCK => 40000000
  | _ => 40000000

/-- CAN_EnableClock from can.c (lines 716-745). -/
def CAN_EnableClock (hw : CAN_Hw) (clockSource : can_clk_src_t) : CAN_Hw :=
  let hw := { hw with mcr := hw.mcr ||| CAN_MCR_MDIS_MASK }
  let hw := if clockSource = CAN_CLK_SRC_SOSCDIV2 then
              { hw with ctrl1 := clearBits hw.ctrl1 CAN_CTRL1_CLKSRC_MASK }
            else
              { hw with ctrl1 := hw.ctrl1 ||| CAN_CTRL1_CLKSRC_MASK }
  { hw with mcr := clearBits hw.mcr CAN_MCR_MDIS_MASK }

/-- CAN_EnterFreezeMode from can.c (lines 640-657); the bounded poll of
the hardware-owned FRZACK bit is resolved by the oracle. -/
def CAN_EnterFreezeMode (hw : CAN_Hw) (ack : Bool) : status_t × CAN_Hw :=
  let hw := { hw with mcr := hw.mcr ||| (CAN_MCR_FRZ_MASK ||| CAN_MCR_HALT_MASK) }
  if ack then (STATUS_SUCCESS, hw) else (STATUS_TIMEOUT, hw)

/-- CAN_ExitFreezeMode from can.c (lines 662-689); the two bounded polls
are resolved by the oracle bits. -/
def CAN_ExitFreezeMode (hw : CAN_Hw) (ackClears notReadyClears : Bool) : status_t × CAN_Hw :=
  let hw := { hw with mcr := clearBits hw.mcr (CAN_MCR_FRZ_MASK ||| CAN_MCR_HALT_MASK) }
  if ackClears = false then (STATUS_TIMEOUT, hw)
  else if notReadyClears = false then (STATUS_TIMEOUT, hw)
  else (STATUS_SUCCESS, hw)

/-- CAN_SoftReset from can.c (lines 694-711); the bounded poll of the
self-clearing SOFTRST bit is resolved by the oracle. -/
def CAN_SoftReset (hw : CAN_Hw) (done : Bool) : status_t × CAN_Hw :=
  let hw := { hw with mcr := hw.mcr ||| CAN_MCR_SOFTRST_MASK }
  if done then (STATUS_SUCCESS, hw) else (STATUS_TIMEOUT, hw)

/-- CAN_InitMessageBuffers from can.c (lines 750-768). -/
def CAN_InitMessageBuffers (hw : CAN_Hw) : CAN_Hw :=
  let hw := { hw with ram := fun i => if i < 128 then 0 else hw.ram i }
  let hw := { hw with rximr := fun i => if i < 16 then 0xFFFFFFFF else hw.rximr i }
  { hw with iflag1 := w1cIflag1 hw.iflag1 0xFFFFFFFF }

/--
CAN_Init from can.c (lines 68-161).  `config = none` models a NULL config
pointer; `fb` resolves the bounded freeze-mode / soft-reset polls.  The
initialized flag of the instance is set only when every step succeeds; on
any failure the function returns before reaching that assignment.
-/
def CAN_Init (st : DriverState) (hw : CAN_Hw) (fb : FreezeBehavior)
    (config : Option can_config_t) : status_t × DriverState × CAN_Hw :=
  match config with
  | none => (STATUS_INVALID_PARAM, st, hw)
  | some cfg =>
    if cfg.inst ≥ CAN_INSTANCE_COUNT then
      (STATUS_INVALID_PARAM, st, hw)
    else
      let hw := CAN_EnableClock hw cfg.clockSource
      let canClockHz := CAN_GetClockFrequency cfg.clockSource
      match CAN_EnterFreezeMode hw fb.freezeAck with
      | (STATUS_SUCCESS, hw) =>
        (match CAN_SoftReset hw fb.softResetDone with
         | (STATUS_SUCCESS, hw) =>
           (match CAN_CalculateTiming canClockHz cfg.baudRate with
            | (STATUS_SUCCESS, some timing) =>
              let hw := { hw with ctrl1 :=
                (timing.preDiv <<< CAN_CTRL1_PRESDIV_SHIFT) |||
                (timing.rJumpWidth <<< CAN_CTRL1_RJW_SHIFT) |||
                (timing.phaseSeg1 <<< CAN_CTRL1_PSEG1_SHIFT) |||
                (timing.phaseSeg2 <<< CAN_CTRL1_PSEG2_SHIFT) |||
                (timing.propSeg <<< CAN_CTRL1_PROPSEG_SHIFT) |||
                (3 <<< CAN_CTRL1_SMP_SHIFT) }
              let hw := if cfg.mode = CAN_MODE_LOOPBACK then
                          { hw with ctrl1 := hw.ctrl1 ||| CAN_CTRL1_LPB_MASK }
                        else if cfg.mode = CAN_MODE_LISTEN_ONLY then
                          { hw with ctrl1 := hw.ctrl1 ||| CAN_CTRL1_LOM_MASK }
                        else hw
              let hw := if cfg.enableSelfReception = false then
                          { hw with mcr := hw.mcr ||| CAN_MCR_SRXDIS_MASK }
                        else hw
              let hw := if cfg.useRxFifo then
                          { hw with mcr := hw.mcr ||| CAN_MCR_RFEN_MASK }
                        else
                          { hw with mcr := clearBits hw.mcr CAN_MCR_RFEN_MASK }
              let hw := { hw with mcr :=
                (clearBits hw.mcr CAN_MCR_MAXMB_MASK) |||
                ((CAN_MB_COUNT - 1) <<< CAN_MCR_MAXMB_SHIFT) }
              let hw := CAN_InitMessageBuffers hw
              let hw := { hw with rxmgmask := 0x1FFFFFFF }
              let hw := { hw with ecr := 0 }
              (match CAN_ExitFreezeMode hw fb.freezeAckClears fb.notReadyClears with
               | (STATUS_SUCCESS, hw) =>
                 (STATUS_SUCCESS,
                  { initialized := fun i => if i = cfg.inst then true else st.initialized i },
                  hw)
               | (_, hw) => (STATUS_ERROR, st, hw))
            | (_, _) => (STATUS_INVALID_PARAM, st, hw))
         | (_, hw) => (STATUS_ERROR, st, hw))
      | (_, hw) => (STATUS_ERROR, st, hw)

/-- The base-address argument of the interrupt-pattern API: one of the
three controllers (CAN0, CAN1, CAN2 in s_canBases) or some other address. -/
inductive can_base_t where
  | CAN0
  | CAN1
  | CAN2
  | OTHER
deriving DecidableEq, Repr

/-- CAN_GetInstanceIndex from can.c (lines 800-810). -/
def CAN_GetInstanceIndex (base : can_base_t) : Nat :=
  match base with
  | can_base_t.CAN0 => 0
  | can_base_t.CAN1 => 1
  | can_base_t.CAN2 => 2
  | can_base_t.OTHER => 0xFF

/-- can_event_t from can.h (only the kinds the dispatcher emits). -/
inductive can_event_t where
  | CAN_EVENT_TX_COMPLETE
  | CAN_EVENT_RX_COMPLETE
deriving DecidableEq, Repr

export can_event_t (CAN_EVENT_TX_COMPLETE CAN_EVENT_RX_COMPLETE)

/-- can_event_data_t from can.h: mailbox index plus the decoded message
for RX events (none models the NULL message pointer of TX events). -/
structure can_event_data_t where
  mbIndex : Nat
  message : Option can_message_t
deriving DecidableEq, Repr

/-- A register access performed by the interrupt dispatcher, in program order. -/
inductive RegAccess where
  | readIFLAG1
  | readRAMn (idx : Nat)
  | writeIFLAG1 (v : Nat)
  | writeRAMn (idx : Nat) (v : Nat)
deriving DecidableEq, Repr

/--
The for-loop of CAN_IRQHandler (can.c line 863): starting from index mb,
return the first index whose bit is set in iflag1, scanning at most fuel
indices (the source scans indices 0 through 31 upward).
-/
def scanFirst (iflag1 : Nat) (mb : Nat) : Nat → Option Nat
  | 0 => none
  | fuel + 1 =>
    if iflag1 &&& (1 <<< mb) ≠ 0 then some mb else scanFirst iflag1 (mb + 1) fuel

/--
CAN_CopyDataFromMb from can.h (lines 224-237), together with the
zero-initialisation of rxMessage in the dispatcher: the first `length`
bytes are unpacked big-endian from the two data words (the uint8_t cast is
mod 256), the remaining bytes stay 0.
-/
def copyDataFromMb (data0 data1 length : Nat) : List Nat :=
  (List.range 8).map fun i =>
    if i < length then
      if i < 4 then (data0 >>> (24 - i * 8)) % 256
      else (data1 >>> (56 - i * 8)) % 256
    else 0

/--
CAN_IRQHandler from can.c (lines 846-941).  `cbs i = true` means a
callback is registered for instance i (s_canCallbacks[i] != NULL).
Returns the hardware state after the call, the callback invocations made
(event kind and event data, in order), and the register accesses
performed, in program order.
-/
def CAN_IRQHandler (base : can_base_t) (cbs : Nat → Bool) (hw : CAN_Hw) :
    CAN_Hw × List (can_event_t × can_event_data_t) × List RegAccess :=
  let instIdx := CAN_GetInstanceIndex base
  if instIdx = 0xFF ∨ cbs instIdx = false then
    (hw, [], [])
  else
    let iflag1 := hw.iflag1
    if iflag1 = 0 then
      (hw, [], [RegAccess.readIFLAG1])
    else
      match scanFirst iflag1 0 32 with
      | none => (hw, [], [RegAccess.readIFLAG1])
      | some mbIdx =>
        let cs := hw.ram (mbIdx * 4)
        let code := (cs &&& CAN_CS_CODE_MASK) >>> CAN_CS_CODE_SHIFT
        if code = CAN_CS_CODE_TX_INACTIVE then
          ({ hw with iflag1 := w1cIflag1 hw.iflag1 (1 <<< mbIdx) },
           [(CAN_EVENT_TX_COMPLETE, { mbIndex := mbIdx, message := none })],
           [RegAccess.readIFLAG1, RegAccess.readRAMn (mbIdx * 4),
            RegAccess.writeIFLAG1 (1 <<< mbIdx)])
        else if code = CAN_CS_CODE_RX_FULL then
          let dlc := (cs &&& CAN_WMBn_CS_DLC_MASK) >>> CAN_WMBn_CS_DLC_SHIFT
          let len := if dlc > 8 then 8 else dlc
          let idReg := hw.ram (mbIdx * 4 + 1)
          let msg : can_message_t :=
            { idType := if cs &&& CAN_WMBn_CS_IDE_MASK ≠ 0 then CAN_ID_EXT else CAN_ID_STD
              id := if cs &&& CAN_WMBn_CS_IDE_MASK ≠ 0 then
                      (idReg &&& CAN_ID_EXT_MASK) >>> CAN_ID_EXT_SHIFT
                    else
                      (idReg &&& CAN_ID_STD_MASK) >>> CAN_ID_STD_SHIFT
              frameType := if cs &&& CAN_WMBn_CS_RTR_MASK ≠ 0 then CAN_FRAME_REMOTE
                           else CAN_FRAME_DATA
              dataLength := len
              data := copyDataFromMb (hw.ram (mbIdx * 4 + 2)) (hw.ram (mbIdx * 4 + 3)) len }
          let newCs := (CAN_CS_CODE_RX_EMPTY <<< CAN_CS_CODE_SHIFT) |||
                       (cs &&& (CAN_WMBn_CS_IDE_MASK ||| CAN_WMBn_CS_RTR_MASK))
          ({ hw with
             iflag1 := w1cIflag1 hw.iflag1 (1 <<< mbIdx)
             ram := updFun hw.ram (mbIdx * 4) newCs },
           [(CAN_EVENT_RX_COMPLETE, { mbIndex := mbIdx, message := some msg })],
           [RegAccess.readIFLAG1, RegAccess.readRAMn (mbIdx * 4),
            RegAccess.readRAMn (mbIdx * 4 + 1),
            RegAccess.readRAMn (mbIdx * 4 + 2), RegAccess.readRAMn (mbIdx * 4 + 3),
            RegAccess.writeIFLAG1 (1 <<< mbIdx),
            RegAccess.writeRAMn (mbIdx * 4) newCs])
        else
          (hw, [], [RegAccess.readIFLAG1, RegAccess.readRAMn (mbIdx * 4)])

/-! ## Bit-arithmetic helper lemmas -/

/-- Extracting a shifted bit-field: masking with a block of m ones at
position k and shifting down equals shift-down followed by mod. -/
theorem and_shift_mask (x k m : Nat) :
    (x &&& ((2 ^ m - 1) <<< k)) >>> k = (x >>> k) % 2 ^ m := by
  apply Nat.eq_of_testBit_eq
  intro j
  simp only [Nat.testBit_shiftRight, Nat.testBit_and, Nat.testBit_shiftLeft,
    Nat.testBit_mod_two_pow, Nat.testBit_two_pow_sub_one, ge_iff_le,
    Nat.le_add_right, decide_True, Bool.true_and, Nat.add_sub_cancel_left]
  rw [Bool.and_comm]

/-- A single-bit mask test is a testBit. -/
theorem and_two_pow_ne_zero (x k : Nat) :
    x &&& 2 ^ k ≠ 0 ↔ x.testBit k = true := by
  constructor
  · intro h
    obtain ⟨i, hi⟩ := Nat.ne_zero_implies_bit_true h
    rw [Nat.testBit_and, Bool.and_eq_true, Nat.testBit_two_pow] at hi
    obtain ⟨h1, h2⟩ := hi
    cases of_decide_eq_true h2
    exact h1
  · intro h hz
    have h2 := congrArg (fun t => t.testBit k) hz
    simp only [Nat.testBit_and, Nat.testBit_two_pow, Nat.zero_testBit, h,
      decide_True, Bool.true_and, decide_eq_true_eq] at h2
    exact absurd h2 (by simp)

/-- Bitwise or of values with disjoint bit ranges is addition. -/
theorem lor_eq_add {a b : Nat} (i : Nat) (ha : a % 2 ^ i = 0) (hb : b < 2 ^ i) :
    a ||| b = a + b := by
  have hdvd : 2 ^ i ∣ a := Nat.dvd_of_mod_eq_zero ha
  have h1 : 2 ^ i * (a / 2 ^ i) = a := Nat.mul_div_cancel' hdvd
  have h2 := Nat.mul_add_lt_is_or hb (a / 2 ^ i)
  rw [h1] at h2
  exact h2.symm

/-- A list of length 8 is an explicit eight-element list. -/
theorem list_len_eight : ∀ {l : List Nat}, l.length = 8 →
    ∃ a b c d e f g i, l = [a, b, c, d, e, f, g, i]
  | [a, b, c, d, e, f, g, i], _ => ⟨a, b, c, d, e, f, g, i, rfl⟩

/-- Unshifted form of the bit-field extraction lemma. -/
theorem and_shift_mask_eq (x k m : Nat) :
    x &&& ((2 ^ m - 1) <<< k) = (((x >>> k) % 2 ^ m) <<< k) := by
  apply Nat.eq_of_testBit_eq
  intro j
  by_cases hj : k ≤ j
  · simp only [Nat.testBit_and, Nat.testBit_shiftLeft, Nat.testBit_shiftRight,
      Nat.testBit_mod_two_pow, Nat.testBit_two_pow_sub_one, ge_iff_le, hj,
      decide_True, Bool.true_and, Nat.add_sub_cancel' hj]
    rw [Bool.and_comm]
  · simp only [Nat.testBit_and, Nat.testBit_shiftLeft, ge_iff_le, hj,
      decide_False, Bool.false_and, Bool.and_false]

/-- Reassociation helper for bitwise or. -/
theorem or_or_comm (a b c : Nat) : (a ||| b) ||| c = (a ||| c) ||| b := by
  rw [Nat.or_assoc, Nat.or_comm b c, ← Nat.or_assoc]

/-- The IDE test performed by the receive unpacker, on a CS word in the
normal form produced by the transmit packer. -/
theorem cs_ide_bit (K dl : Nat) (hdl : dl < 16) :
    ((2 ^ 20 * K + dl * 65536) &&& 0x200000 ≠ 0) ↔ K.testBit 1 = true := by
  have h21 : (0x200000 : Nat) = 2 ^ 21 := by norm_num
  rw [h21, and_two_pow_ne_zero]
  rw [Nat.testBit_mul_pow_two_add K (show dl * 65536 < 2 ^ 20 by omega) 21]
  norm_num

/-- The RTR test performed by the receive unpacker, on a CS word in the
normal form produced by the transmit packer. -/
theorem cs_rtr_bit (K dl : Nat) (hdl : dl < 16) :
    ((2 ^ 20 * K + dl * 65536) &&& 0x100000 ≠ 0) ↔ K.testBit 0 = true := by
  have h20 : (0x100000 : Nat) = 2 ^ 20 := by norm_num
  rw [h20, and_two_pow_ne_zero]
  rw [Nat.testBit_mul_pow_two_add K (show dl * 65536 < 2 ^ 20 by omega) 20]
  norm_num

/-- The DLC extraction performed by the receive unpacker, on a CS word in
the normal form produced by the transmit packer. -/
theorem cs_dlc (K dl : Nat) (hdl : dl < 16) :
    ((2 ^ 20 * K + dl * 65536) &&& 0xF0000) >>> 16 = dl := by
  have hmask : (0xF0000 : Nat) = (2 ^ 4 - 1) <<< 16 := by decide
  rw [hmask, and_shift_mask, Nat.shiftRight_eq_div_pow]
  omega

/-- A big-endian packed data word and its four byte extractions. -/
theorem bytes_roundtrip (b0 b1 b2 b3 : Nat) (h0 : b0 < 256) (h1 : b1 < 256)
    (h2 : b2 < 256) (h3 : b3 < 256) :
    ((b0 <<< 24 ||| b1 <<< 16 ||| b2 <<< 8 ||| b3) >>> 24) &&& 0xFF = b0 ∧
    ((b0 <<< 24 ||| b1 <<< 16 ||| b2 <<< 8 ||| b3) >>> 16) &&& 0xFF = b1 ∧
    ((b0 <<< 24 ||| b1 <<< 16 ||| b2 <<< 8 ||| b3) >>> 8) &&& 0xFF = b2 ∧
    (b0 <<< 24 ||| b1 <<< 16 ||| b2 <<< 8 ||| b3) &&& 0xFF = b3 := by
  have hw : (b0 <<< 24 ||| b1 <<< 16 ||| b2 <<< 8 ||| b3) =
      b0 * 2 ^ 24 + b1 * 2 ^ 16 + b2 * 2 ^ 8 + b3 := by
    simp only [Nat.shiftLeft_eq]
    rw [lor_eq_add 24 (show (b0 * 2 ^ 24) % 2 ^ 24 = 0 by omega)
        (show b1 * 2 ^ 16 < 2 ^ 24 by omega),
      lor_eq_add 16 (show (b0 * 2 ^ 24 + b1 * 2 ^ 16) % 2 ^ 16 = 0 by omega)
        (show b2 * 2 ^ 8 < 2 ^ 16 by omega),
      lor_eq_add 8 (show (b0 * 2 ^ 24 + b1 * 2 ^ 16 + b2 * 2 ^ 8) % 2 ^ 8 = 0 by omega) h3]
  have hmask : (0xFF : Nat) = 2 ^ 8 - 1 := by norm_num
  rw [hw, hmask, Nat.shiftRight_eq_div_pow, Nat.shiftRight_eq_div_pow,
    Nat.shiftRight_eq_div_pow, Nat.and_pow_two_sub_one_eq_mod,
    Nat.and_pow_two_sub_one_eq_mod, Nat.and_pow_two_sub_one_eq_mod,
    Nat.and_pow_two_sub_one_eq_mod]
  refine ⟨by omega, by omega, by omega, by omega⟩

/-- CS word produced by the transmit packer: standard-ID data frame. -/
theorem sendCsWord_std_data (m : can_message_t) (h1 : m.idType = CAN_ID_STD)
    (h2 : m.frameType = CAN_FRAME_DATA) (hdl : m.dataLength ≤ 8) :
    sendCsWord m = 2 ^ 20 * 0xC4 + m.dataLength * 65536 := by
  simp only [sendCsWord, h1, h2, CAN_CS_CODE_TX_DATA, CAN_CS_CODE_SHIFT,
    CAN_WMBn_CS_DLC_SHIFT, CAN_WMBn_CS_SRR_MASK, CAN_WMBn_CS_IDE_MASK,
    CAN_WMBn_CS_RTR_MASK, Nat.shiftLeft_eq, reduceIte, reduceCtorEq,
    if_false, if_true]
  rw [or_or_comm, show (12 * 2 ^ 24 : Nat) ||| 0x400000 = 205520896 by decide]
  rw [lor_eq_add 20 (show (205520896 : Nat) % 2 ^ 20 = 0 by omega)
    (show m.dataLength * 2 ^ 16 < 2 ^ 20 by omega)]
  omega

/-- CS word produced by the transmit packer: standard-ID remote frame. -/
theorem sendCsWord_std_remote (m : can_message_t) (h1 : m.idType = CAN_ID_STD)
    (h2 : m.frameType = CAN_FRAME_REMOTE) (hdl : m.dataLength ≤ 8) :
    sendCsWord m = 2 ^ 20 * 0xC5 + m.dataLength * 65536 := by
  simp only [sendCsWord, h1, h2, CAN_CS_CODE_TX_DATA, CAN_CS_CODE_SHIFT,
    CAN_WMBn_CS_DLC_SHIFT, CAN_WMBn_CS_SRR_MASK, CAN_WMBn_CS_IDE_MASK,
    CAN_WMBn_CS_RTR_MASK, Nat.shiftLeft_eq, reduceIte, reduceCtorEq,
    if_false, if_true]
  rw [or_or_comm (12 * 2 ^ 24) (m.dataLength * 2 ^ 16) 4194304,
    or_or_comm (12 * 2 ^ 24 ||| 4194304) (m.dataLength * 2 ^ 16) 1048576]
  rw [show ((12 * 2 ^ 24 : Nat) ||| 4194304) ||| 1048576 = 206569472 by decide]
  rw [lor_eq_add 20 (show (206569472 : Nat) % 2 ^ 20 = 0 by omega)
    (show m.dataLength * 2 ^ 16 < 2 ^ 20 by omega)]
  omega

/-- CS word produced by the transmit packer: extended-ID data frame. -/
theorem sendCsWord_ext_data (m : can_message_t) (h1 : m.idType = CAN_ID_EXT)
    (h2 : m.frameType = CAN_FRAME_DATA) (hdl : m.dataLength ≤ 8) :
    sendCsWord m = 2 ^ 20 * 0xC2 + m.dataLength * 65536 := by
  simp only [sendCsWord, h1, h2, CAN_CS_CODE_TX_DATA, CAN_CS_CODE_SHIFT,
    CAN_WMBn_CS_DLC_SHIFT, CAN_WMBn_CS_SRR_MASK, CAN_WMBn_CS_IDE_MASK,
    CAN_WMBn_CS_RTR_MASK, Nat.shiftLeft_eq, reduceIte, reduceCtorEq,
    if_false, if_true]
  rw [or_or_comm, show (12 * 2 ^ 24 : Nat) ||| 0x200000 = 203423744 by decide]
  rw [lor_eq_add 20 (show (203423744 : Nat) % 2 ^ 20 = 0 by omega)
    (show m.dataLength * 2 ^ 16 < 2 ^ 20 by omega)]
  omega

/-- CS word produced by the transmit packer: extended-ID remote frame. -/
theorem sendCsWord_ext_remote (m : can_message_t) (h1 : m.idType = CAN_ID_EXT)
    (h2 : m.frameType = CAN_FRAME_REMOTE) (hdl : m.dataLength ≤ 8) :
    sendCsWord m = 2 ^ 20 * 0xC3 + m.dataLength * 65536 := by
  simp only [sendCsWord, h1, h2, CAN_CS_CODE_TX_DATA, CAN_CS_CODE_SHIFT,
    CAN_WMBn_CS_DLC_SHIFT, CAN_WMBn_CS_SRR_MASK, CAN_WMBn_CS_IDE_MASK,
    CAN_WMBn_CS_RTR_MASK, Nat.shiftLeft_eq, reduceIte, reduceCtorEq,
    if_false, if_true]
  rw [or_or_comm (12 * 2 ^ 24) (m.dataLength * 2 ^ 16) 2097152,
    or_or_comm (12 * 2 ^ 24 ||| 2097152) (m.dataLength * 2 ^ 16) 1048576]
  rw [show ((12 * 2 ^ 24 : Nat) ||| 2097152) ||| 1048576 = 204472320 by decide]
  rw [lor_eq_add 20 (show (204472320 : Nat) % 2 ^ 20 = 0 by omega)
    (show m.dataLength * 2 ^ 16 < 2 ^ 20 by omega)]
  omega

/-- Standard-ID encode/decode round trip on the ID word. -/
theorem id_roundtrip_std (idv : Nat) (h : idv < 0x800) :
    ((((idv <<< 18) &&& 0x1FFC0000) &&& 0x1FFC0000) >>> 18) = idv := by
  have hmask : (0x1FFC0000 : Nat) = (2 ^ 11 - 1) <<< 18 := by decide
  rw [hmask, Nat.and_assoc, Nat.and_self, and_shift_mask]
  simp only [Nat.shiftLeft_eq, Nat.shiftRight_eq_div_pow]
  omega

/-- Extended-ID encode/decode round trip on the ID word. -/
theorem id_roundtrip_ext (idv : Nat) (h : idv < 0x20000000) :
    ((((idv <<< 0) &&& 0x1FFFFFFF) &&& 0x1FFFFFFF) >>> 0) = idv := by
  have hmask : (0x1FFFFFFF : Nat) = 2 ^ 29 - 1 := by norm_num
  rw [Nat.shiftLeft_zero, Nat.shiftRight_zero, hmask, Nat.and_assoc, Nat.and_self,
    Nat.and_pow_two_sub_one_eq_mod]
  omega

/-! ## Claim theorems -/

/--
C4.  The claim states that for admissible (clockHz, baudRate) pairs
CalculateTiming returns the computed prescaler clockHz/(baudRate*16) - 1
in preDiv and segments satisfying 1 + propSeg + phaseSeg1 + phaseSeg2 = 16.
The code computes the prescaler, stores it, and then overwrites it with 0
(`timing->preDiv = 0U;`), and returns segment fields summing to
1 + 6 + 3 + 3 = 13.  At clockHz = 40 MHz, baudRate = 500 kbps the computed
prescaler is 4, yet the function returns preDiv = 0.
-/
theorem C4_calculateTiming_overwrites_prescaler :
    CAN_CalculateTiming 40000000 500000 =
      (STATUS_SUCCESS,
       some { propSeg := 6, phaseSeg1 := 3, phaseSeg2 := 3, rJumpWidth := 3, preDiv := 0 }) ∧
    40000000 / (500000 * 16) - 1 = 4 ∧
    (0 : Nat) ≠ 4 ∧
    1 + 6 + 3 + 3 ≠ 16 := by
  refine ⟨by decide, by norm_num, by norm_num, by norm_num⟩

/--
C1.  For every initialized instance, TX-range mailbox index and message
with dataLength at most 8, CAN_Send performs exactly these register writes
in this order: clear the mailbox pending flag in IFLAG1, write the two
data words, write the identifier word, and last the control-status word;
in particular no write to the CS word (word offset mbIndex*4 + 0) occurs
among the first four writes.
-/
theorem C1_send_write_order (st : DriverState) (inst mbIndex : Nat) (m : can_message_t)
    (hinst : inst < CAN_INSTANCE_COUNT)
    (hinit : st.initialized inst = true)
    (hmb1 : CAN_TX_MB_START ≤ mbIndex)
    (hmb2 : mbIndex < CAN_TX_MB_START + CAN_TX_MB_COUNT)
    (hlen : m.dataLength ≤ CAN_MAX_DATA_LENGTH) :
    CAN_Send st inst mbIndex (some m) =
      (STATUS_SUCCESS,
       [RegWrite.IFLAG1 (1 <<< mbIndex),
        RegWrite.RAMn (mbIndex * MSG_BUF_SIZE + 2) (sendDataWord0 m),
        RegWrite.RAMn (mbIndex * MSG_BUF_SIZE + 3) (sendDataWord1 m),
        RegWrite.RAMn (mbIndex * MSG_BUF_SIZE + 1) (sendIdWord m),
        RegWrite.RAMn (mbIndex * MSG_BUF_SIZE + 0) (sendCsWord m)]) ∧
    ∀ w ∈ ((CAN_Send st inst mbIndex (some m)).2.take 4), ∀ v,
      w ≠ RegWrite.RAMn (mbIndex * MSG_BUF_SIZE + 0) v := by
  simp only [CAN_INSTANCE_COUNT, CAN_TX_MB_START, CAN_TX_MB_COUNT,
    CAN_MAX_DATA_LENGTH] at hinst hmb1 hmb2 hlen
  have heq : CAN_Send st inst mbIndex (some m) =
      (STATUS_SUCCESS,
       [RegWrite.IFLAG1 (1 <<< mbIndex),
        RegWrite.RAMn (mbIndex * MSG_BUF_SIZE + 2) (sendDataWord0 m),
        RegWrite.RAMn (mbIndex * MSG_BUF_SIZE + 3) (sendDataWord1 m),
        RegWrite.RAMn (mbIndex * MSG_BUF_SIZE + 1) (sendIdWord m),
        RegWrite.RAMn (mbIndex * MSG_BUF_SIZE + 0) (sendCsWord m)]) := by
    simp only [CAN_Send, CAN_INSTANCE_COUNT, CAN_TX_MB_START, CAN_TX_MB_COUNT,
      CAN_MAX_DATA_LENGTH]
    rw [if_neg (by omega), if_neg (by simp [hinit]), if_neg (by omega),
      if_neg (by omega)]
  refine ⟨heq, ?_⟩
  rw [heq]
  intro w hw v
  simp only [List.take, List.mem_cons, List.not_mem_nil, or_false] at hw
  rcases hw with h | h | h | h <;> subst h <;> simp <;> omega

/-- Witness for C1 at a concrete input. -/
theorem C1_send_write_order_witness :
    ((0 : Nat) < CAN_INSTANCE_COUNT ∧
     (DriverState.mk fun _ => true).initialized 0 = true ∧
     CAN_TX_MB_START ≤ 8 ∧ (8 : Nat) < CAN_TX_MB_START + CAN_TX_MB_COUNT ∧
     (can_message_t.mk 0x123 CAN_ID_STD CAN_FRAME_DATA 8
        [1, 2, 3, 4, 5, 6, 7, 8]).dataLength ≤ CAN_MAX_DATA_LENGTH) ∧
    (CAN_Send (DriverState.mk fun _ => true) 0 8
        (some (can_message_t.mk 0x123 CAN_ID_STD CAN_FRAME_DATA 8 [1, 2, 3, 4, 5, 6, 7, 8]))).1 =
      STATUS_SUCCESS := by
  refine ⟨by repeat constructor, ?_⟩
  have h := C1_send_write_order (DriverState.mk fun _ => true) 0 8
    (can_message_t.mk 0x123 CAN_ID_STD CAN_FRAME_DATA 8 [1, 2, 3, 4, 5, 6, 7, 8])
    (by decide) (by decide) (by decide) (by decide) (by decide)
  rw [h.1]

/--
C5.  For every message with a standard id below 2 to the 11th or an
extended id below 2 to the 29th, dataLength at most 8 and byte-valued
payload, packing the message with the transmit packer of CAN_Send (CS
word, ID word and the two big-endian data words) and unpacking those words
with the receive unpacker of CAN_Receive yields the identical message:
byte-identical payload, and identical id, idType, frameType and
dataLength.
-/
theorem C5_pack_unpack_roundtrip (m : can_message_t)
    (hlen8 : m.data.length = 8)
    (hbytes : ∀ b ∈ m.data, b < 256)
    (hdl : m.dataLength ≤ 8)
    (hstd : m.idType = CAN_ID_STD → m.id < 0x800)
    (hext : m.idType = CAN_ID_EXT → m.id < 0x20000000) :
    receiveDecode (sendCsWord m) (sendIdWord m) (sendDataWord0 m) (sendDataWord1 m) = m := by
  obtain ⟨idv, idType, frameType, dl, data⟩ := m
  simp only at hlen8 hbytes hdl hstd hext
  obtain ⟨b0, b1, b2, b3, b4, b5, b6, b7, rfl⟩ := list_len_eight hlen8
  have hb0 : b0 < 256 := hbytes b0 (by simp)
  have hb1 : b1 < 256 := hbytes b1 (by simp)
  have hb2 : b2 < 256 := hbytes b2 (by simp)
  have hb3 : b3 < 256 := hbytes b3 (by simp)
  have hb4 : b4 < 256 := hbytes b4 (by simp)
  have hb5 : b5 < 256 := hbytes b5 (by simp)
  have hb6 : b6 < 256 := hbytes b6 (by simp)
  have hb7 : b7 < 256 := hbytes b7 (by simp)
  have hw0 := bytes_roundtrip b0 b1 b2 b3 hb0 hb1 hb2 hb3
  have hw1 := bytes_roundtrip b4 b5 b6 b7 hb4 hb5 hb6 hb7
  have hsd0 : sendDataWord0 ⟨idv, idType, frameType, dl, [b0, b1, b2, b3, b4, b5, b6, b7]⟩ =
      b0 <<< 24 ||| b1 <<< 16 ||| b2 <<< 8 ||| b3 := by
    simp [sendDataWord0]
  have hsd1 : sendDataWord1 ⟨idv, idType, frameType, dl, [b0, b1, b2, b3, b4, b5, b6, b7]⟩ =
      b4 <<< 24 ||| b5 <<< 16 ||| b6 <<< 8 ||| b7 := by
    simp [sendDataWord1]
  cases idType <;> cases frameType
  · -- standard id, data frame
    have hid : idv < 0x800 := hstd rfl
    have hcs := sendCsWord_std_data ⟨idv, CAN_ID_STD, CAN_FRAME_DATA, dl,
      [b0, b1, b2, b3, b4, b5, b6, b7]⟩ rfl rfl hdl
    simp only [receiveDecode, sendIdWord, CAN_WMBn_CS_IDE_MASK, CAN_WMBn_CS_RTR_MASK,
      CAN_WMBn_CS_DLC_MASK, CAN_WMBn_CS_DLC_SHIFT, CAN_ID_STD_MASK, CAN_ID_STD_SHIFT,
      CAN_ID_EXT_MASK, CAN_ID_EXT_SHIFT, hcs, hsd0, hsd1, reduceCtorEq, reduceIte,
      if_false, if_true]
    have hide : ¬((2 ^ 20 * 0xC4 + dl * 65536) &&& 0x200000 ≠ 0) := fun h =>
      absurd ((cs_ide_bit 0xC4 dl (by omega)).mp h) (by decide)
    have hrtr : ¬((2 ^ 20 * 0xC4 + dl * 65536) &&& 0x100000 ≠ 0) := fun h =>
      absurd ((cs_rtr_bit 0xC4 dl (by omega)).mp h) (by decide)
    rw [if_neg hide, if_neg hide, if_neg hrtr, can_message_t.mk.injEq]
    refine ⟨id_roundtrip_std idv hid, rfl, rfl, cs_dlc 0xC4 dl (by omega), ?_⟩
    simp only [List.cons.injEq, and_true]
    exact ⟨hw0.1, hw0.2.1, hw0.2.2.1, hw0.2.2.2, hw1.1, hw1.2.1, hw1.2.2.1, hw1.2.2.2⟩
  · -- standard id, remote frame
    have hid : idv < 0x800 := hstd rfl
    have hcs := sendCsWord_std_remote ⟨idv, CAN_ID_STD, CAN_FRAME_REMOTE, dl,
      [b0, b1, b2, b3, b4, b5, b6, b7]⟩ rfl rfl hdl
    simp only [receiveDecode, sendIdWord, CAN_WMBn_CS_IDE_MASK, CAN_WMBn_CS_RTR_MASK,
      CAN_WMBn_CS_DLC_MASK, CAN_WMBn_CS_DLC_SHIFT, CAN_ID_STD_MASK, CAN_ID_STD_SHIFT,
      CAN_ID_EXT_MASK, CAN_ID_EXT_SHIFT, hcs, hsd0, hsd1, reduceCtorEq, reduceIte,
      if_false, if_true]
    have hide : ¬((2 ^ 20 * 0xC5 + dl * 65536) &&& 0x200000 ≠ 0) := fun h =>
      absurd ((cs_ide_bit 0xC5 dl (by omega)).mp h) (by decide)
    have hrtr : (2 ^ 20 * 0xC5 + dl * 65536) &&& 0x100000 ≠ 0 :=
      (cs_rtr_bit 0xC5 dl (by omega)).mpr (by decide)
    rw [if_neg hide, if_neg hide, if_pos hrtr, can_message_t.mk.injEq]
    refine ⟨id_roundtrip_std idv hid, rfl, rfl, cs_dlc 0xC5 dl (by omega), ?_⟩
    simp only [List.cons.injEq, and_true]
    exact ⟨hw0.1, hw0.2.1, hw0.2.2.1, hw0.2.2.2, hw1.1, hw1.2.1, hw1.2.2.1, hw1.2.2.2⟩
  · -- extended id, data frame
    have hid : idv < 0x20000000 := hext rfl
    have hcs := sendCsWord_ext_data ⟨idv, CAN_ID_EXT, CAN_FRAME_DATA, dl,
      [b0, b1, b2, b3, b4, b5, b6, b7]⟩ rfl rfl hdl
    simp only [receiveDecode, sendIdWord, CAN_WMBn_CS_IDE_MASK, CAN_WMBn_CS_RTR_MASK,
      CAN_WMBn_CS_DLC_MASK, CAN_WMBn_CS_DLC_SHIFT, CAN_ID_STD_MASK, CAN_ID_STD_SHIFT,
      CAN_ID_EXT_MASK, CAN_ID_EXT_SHIFT, hcs, hsd0, hsd1, reduceCtorEq, reduceIte,
      if_false, if_true]
    have hide : (2 ^ 20 * 0xC2 + dl * 65536) &&& 0x200000 ≠ 0 :=
      (cs_ide_bit 0xC2 dl (by omega)).mpr (by decide)
    have hrtr : ¬((2 ^ 20 * 0xC2 + dl * 65536) &&& 0x100000 ≠ 0) := fun h =>
      absurd ((cs_rtr_bit 0xC2 dl (by omega)).mp h) (by decide)
    rw [if_pos hide, if_pos hide, if_neg hrtr, can_message_t.mk.injEq]
    refine ⟨id_roundtrip_ext idv hid, rfl, rfl, cs_dlc 0xC2 dl (by omega), ?_⟩
    simp only [List.cons.injEq, and_true]
    exact ⟨hw0.1, hw0.2.1, hw0.2.2.1, hw0.2.2.2, hw1.1, hw1.2.1, hw1.2.2.1, hw1.2.2.2⟩
  · -- extended id, remote frame
    have hid : idv < 0x20000000 := hext rfl
    have hcs := sendCsWord_ext_remote ⟨idv, CAN_ID_EXT, CAN_FRAME_REMOTE, dl,
      [b0, b1, b2, b3, b4, b5, b6, b7]⟩ rfl rfl hdl
    simp only [receiveDecode, sendIdWord, CAN_WMBn_CS_IDE_MASK, CAN_WMBn_CS_RTR_MASK,
      CAN_WMBn_CS_DLC_MASK, CAN_WMBn_CS_DLC_SHIFT, CAN_ID_STD_MASK, CAN_ID_STD_SHIFT,
      CAN_ID_EXT_MASK, CAN_ID_EXT_SHIFT, hcs, hsd0, hsd1, reduceCtorEq, reduceIte,
      if_false, if_true]
    have hide : (2 ^ 20 * 0xC3 + dl * 65536) &&& 0x200000 ≠ 0 :=
      (cs_ide_bit 0xC3 dl (by omega)).mpr (by decide)
    have hrtr : (2 ^ 20 * 0xC3 + dl * 65536) &&& 0x100000 ≠ 0 :=
      (cs_rtr_bit 0xC3 dl (by omega)).mpr (by decide)
    rw [if_pos hide, if_pos hide, if_pos hrtr, can_message_t.mk.injEq]
    refine ⟨id_roundtrip_ext idv hid, rfl, rfl, cs_dlc 0xC3 dl (by omega), ?_⟩
    simp only [List.cons.injEq, and_true]
    exact ⟨hw0.1, hw0.2.1, hw0.2.2.1, hw0.2.2.2, hw1.1, hw1.2.1, hw1.2.2.1, hw1.2.2.2⟩

/-- Witness for C5 at a concrete input. -/
theorem C5_pack_unpack_roundtrip_witness :
    ((can_message_t.mk 0x123 CAN_ID_STD CAN_FRAME_DATA 8
        [0x11, 0x22, 0x33, 0x44, 0x55, 0x66, 0x77, 0x88]).data.length = 8 ∧
     (∀ b ∈ (can_message_t.mk 0x123 CAN_ID_STD CAN_FRAME_DATA 8
        [0x11, 0x22, 0x33, 0x44, 0x55, 0x66, 0x77, 0x88]).data, b < 256)) ∧
    receiveDecode
      (sendCsWord (can_message_t.mk 0x123 CAN_ID_STD CAN_FRAME_DATA 8
        [0x11, 0x22, 0x33, 0x44, 0x55, 0x66, 0x77, 0x88]))
      (sendIdWord (can_message_t.mk 0x123 CAN_ID_STD CAN_FRAME_DATA 8
        [0x11, 0x22, 0x33, 0x44, 0x55, 0x66, 0x77, 0x88]))
      (sendDataWord0 (can_message_t.mk 0x123 CAN_ID_STD CAN_FRAME_DATA 8
        [0x11, 0x22, 0x33, 0x44, 0x55, 0x66, 0x77, 0x88]))
      (sendDataWord1 (can_message_t.mk 0x123 CAN_ID_STD CAN_FRAME_DATA 8
        [0x11, 0x22, 0x33, 0x44, 0x55, 0x66, 0x77, 0x88])) =
      can_message_t.mk 0x123 CAN_ID_STD CAN_FRAME_DATA 8
        [0x11, 0x22, 0x33, 0x44, 0x55, 0x66, 0x77, 0x88] := by
  refine ⟨⟨by decide, by decide⟩, ?_⟩
  exact C5_pack_unpack_roundtrip _ (by decide) (by decide) (by decide)
    (fun _ => by decide) (fun h => by simp at h)

/-- The busy-wait returns false whenever the observed flag bit stays clear. -/
theorem pollFlag_false {iflag1 mbMask : Nat} (h : iflag1 &&& mbMask = 0) :
    ∀ fuel, pollFlag iflag1 mbMask fuel = false := by
  intro fuel
  induction fuel with
  | zero => rfl
  | succ n ih => simp [pollFlag, h, ih]

/-- Concrete driver state with every instance initialized. -/
def st_allInit : DriverState := ⟨fun _ => true⟩

/-- Concrete driver state with no instance initialized. -/
def st_noneInit : DriverState := ⟨fun _ => false⟩

/-- Concrete controller state with all registers and mailbox RAM zero. -/
def hw_zero : CAN_Hw := ⟨0, 0, 0, 0, 0, 0, 0, fun _ => 0, fun _ => 0⟩

/-- Concrete all-zero message. -/
def msg_zero : can_message_t := ⟨0, CAN_ID_STD, CAN_FRAME_DATA, 0, [0, 0, 0, 0, 0, 0, 0, 0]⟩

/--
C8.  On an initialized instance and an RX-range mailbox whose pending flag
is clear, CAN_Receive returns STATUS_ERROR (which is not the timeout
status), performs no register write, and leaves the caller's message
out-parameter unchanged.
-/
theorem C8_receive_no_data (st : DriverState) (hw : CAN_Hw) (inst mbIndex : Nat)
    (m : can_message_t)
    (hinst : inst < CAN_INSTANCE_COUNT)
    (hinit : st.initialized inst = true)
    (hmb1 : CAN_RX_MB_START ≤ mbIndex)
    (hmb2 : mbIndex < CAN_MB_COUNT)
    (hflag : hw.iflag1 &&& (1 <<< mbIndex) = 0) :
    CAN_Receive st hw inst mbIndex (some m) = (STATUS_ERROR, [], some m) ∧
    STATUS_ERROR ≠ STATUS_TIMEOUT := by
  refine ⟨?_, by decide⟩
  simp only [CAN_INSTANCE_COUNT, CAN_RX_MB_START, CAN_MB_COUNT] at hinst hmb1 hmb2
  simp only [CAN_Receive, CAN_INSTANCE_COUNT, CAN_RX_MB_START, CAN_MB_COUNT]
  rw [if_neg (by omega), if_neg (by simp [hinit]), if_neg (by omega), if_pos hflag]

/-- Witness for C8 at a concrete input. -/
theorem C8_receive_no_data_witness :
    ((0 : Nat) < CAN_INSTANCE_COUNT ∧ st_allInit.initialized 0 = true ∧
     CAN_RX_MB_START ≤ 16 ∧ (16 : Nat) < CAN_MB_COUNT ∧
     hw_zero.iflag1 &&& (1 <<< 16) = 0) ∧
    CAN_Receive st_allInit hw_zero 0 16 (some msg_zero) = (STATUS_ERROR, [], some msg_zero) := by
  refine ⟨⟨by decide, by decide, by decide, by decide, by decide⟩, ?_⟩
  exact (C8_receive_no_data st_allInit hw_zero 0 16 msg_zero (by decide) (by decide)
    (by decide) (by decide) (by decide)).1

/--
C7 counterexample.  The claim says every call with an out-of-range mailbox
index returns InvalidParam, giving ReceiveBlocking as an example; but
CAN_ReceiveBlocking performs no mailbox-index validation, and with
mailbox index 0 (outside the RX range 16..31) and a clear pending flag it
returns STATUS_TIMEOUT, not STATUS_INVALID_PARAM.
-/
theorem C7_counterexample :
    (CAN_ReceiveBlocking st_allInit hw_zero 0 0 (some msg_zero) 1).1 = STATUS_TIMEOUT ∧
    STATUS_TIMEOUT ≠ STATUS_INVALID_PARAM ∧
    (0 : Nat) < CAN_RX_MB_START := by
  refine ⟨?_, by decide, by decide⟩
  simp only [CAN_ReceiveBlocking]
  rw [if_neg (by decide), if_neg (by decide),
    if_neg (by rw [pollFlag_false (by decide)]; decide)]

/--
C7 amended.  Argument validation in CAN_Send is synchronous and precedes
every register write: on an initialized instance, a Send whose message has
dataLength 9 returns STATUS_INVALID_PARAM with an empty write trace, for
every mailbox index.  CAN_ReceiveBlocking however never validates the
mailbox index: on an initialized instance, a call whose mailbox flag bit
stays clear returns STATUS_TIMEOUT (not STATUS_INVALID_PARAM) for every
mailbox index, including out-of-range ones, after polling the flag.
-/
theorem C7_amended_validation (st : DriverState) (hw : CAN_Hw) (inst : Nat)
    (m : can_message_t) (tmo : Nat)
    (hinst : inst < CAN_INSTANCE_COUNT)
    (hinit : st.initialized inst = true) :
    (∀ mbIndex, m.dataLength = 9 →
       CAN_Send st inst mbIndex (some m) = (STATUS_INVALID_PARAM, [])) ∧
    (∀ mbIndex, hw.iflag1 &&& (1 <<< mbIndex) = 0 →
       CAN_ReceiveBlocking st hw inst mbIndex (some m) tmo =
         (STATUS_TIMEOUT, [], some m)) := by
  simp only [CAN_INSTANCE_COUNT] at hinst
  constructor
  · intro mbIndex hdl9
    simp only [CAN_Send, CAN_INSTANCE_COUNT, CAN_TX_MB_START, CAN_TX_MB_COUNT,
      CAN_MAX_DATA_LENGTH]
    rw [if_neg (by omega), if_neg (by simp [hinit])]
    by_cases hmb : mbIndex < 8 ∨ mbIndex ≥ 8 + 8
    · rw [if_pos hmb]
    · rw [if_neg hmb, if_pos (by omega)]
  · intro mbIndex hflag
    simp only [CAN_ReceiveBlocking, CAN_INSTANCE_COUNT]
    rw [if_neg (by omega), if_neg (by simp [hinit]),
      if_neg (by rw [pollFlag_false hflag]; decide)]

/-- Witness for the amended C7 at a concrete input. -/
theorem C7_amended_validation_witness :
    ((0 : Nat) < CAN_INSTANCE_COUNT ∧ st_allInit.initialized 0 = true) ∧
    CAN_Send st_allInit 0 8
        (some (can_message_t.mk 0 CAN_ID_STD CAN_FRAME_DATA 9 [0, 0, 0, 0, 0, 0, 0, 0])) =
      (STATUS_INVALID_PARAM, []) ∧
    CAN_ReceiveBlocking st_allInit hw_zero 0 0 (some msg_zero) 1 =
      (STATUS_TIMEOUT, [], some msg_zero) := by
  refine ⟨⟨by decide, by decide⟩, ?_, ?_⟩
  · exact (C7_amended_validation st_allInit hw_zero 0
      (can_message_t.mk 0 CAN_ID_STD CAN_FRAME_DATA 9 [0, 0, 0, 0, 0, 0, 0, 0]) 1
      (by decide) (by decide)).1 8 rfl
  · exact (C7_amended_validation st_allInit hw_zero 0 msg_zero 1
      (by decide) (by decide)).2 0 (by decide)

/--
C6 counterexample.  The claim says every mailbox-using operation on an
uninitialized instance (explicitly including AbortTransmission and
IsMbBusy) returns the not-initialized error; but CAN_AbortTransmission
performs no initialized-flag check and returns STATUS_SUCCESS on an
uninitialized instance with valid parameters.
-/
theorem C6_counterexample :
    st_noneInit.initialized 0 = false ∧
    (CAN_AbortTransmission st_noneInit hw_zero 0 8).1 = STATUS_SUCCESS ∧
    (CAN_IsMbBusy st_noneInit hw_zero 0 8 true).1 = STATUS_SUCCESS ∧
    STATUS_SUCCESS ≠ STATUS_NOT_INITIALIZED := by
  refine ⟨by decide, by decide, by decide, by decide⟩

/--
C6 amended.  Any CAN_Init call that does not return STATUS_SUCCESS leaves
the driver's initialized flags unchanged (so an instance on which Init
never completed successfully stays uninitialized); on an uninitialized
instance, Send, SendBlocking, Receive, ReceiveBlocking, ConfigRxFilter and
ConfigTxMailbox all return STATUS_NOT_INITIALIZED; AbortTransmission and
IsMbBusy perform no initialized-flag check and return STATUS_SUCCESS for
in-range parameters.
-/
theorem C6_amended_not_initialized :
    (∀ st hw fb config s st2 hw2,
       CAN_Init st hw fb config = (s, st2, hw2) → s ≠ STATUS_SUCCESS → st2 = st) ∧
    (∀ st inst mb (m : can_message_t), inst < CAN_INSTANCE_COUNT →
       st.initialized inst = false →
       (CAN_Send st inst mb (some m)).1 = STATUS_NOT_INITIALIZED) ∧
    (∀ st hw inst mb (m : can_message_t) tmo, inst < CAN_INSTANCE_COUNT →
       st.initialized inst = false →
       (CAN_SendBlocking st hw inst mb (some m) tmo).1 = STATUS_NOT_INITIALIZED) ∧
    (∀ st hw inst mb (m : can_message_t), inst < CAN_INSTANCE_COUNT →
       st.initialized inst = false →
       (CAN_Receive st hw inst mb (some m)).1 = STATUS_NOT_INITIALIZED) ∧
    (∀ st hw inst mb (m : can_message_t) tmo, inst < CAN_INSTANCE_COUNT →
       st.initialized inst = false →
       (CAN_ReceiveBlocking st hw inst mb (some m) tmo).1 = STATUS_NOT_INITIALIZED) ∧
    (∀ st hw inst mb (f : can_rx_filter_t), inst < CAN_INSTANCE_COUNT →
       st.initialized inst = false →
       (CAN_ConfigRxFilter st hw inst mb (some f)).1 = STATUS_NOT_INITIALIZED) ∧
    (∀ st hw inst mb, inst < CAN_INSTANCE_COUNT →
       st.initialized inst = false →
       (CAN_ConfigTxMailbox st hw inst mb).1 = STATUS_NOT_INITIALIZED) ∧
    (∀ st hw inst mb, inst < CAN_INSTANCE_COUNT → mb < CAN_MB_COUNT →
       st.initialized inst = false →
       (CAN_AbortTransmission st hw inst mb).1 = STATUS_SUCCESS) ∧
    (∀ st hw inst mb, inst < CAN_INSTANCE_COUNT → mb < CAN_MB_COUNT →
       st.initialized inst = false →
       (CAN_IsMbBusy st hw inst mb true).1 = STATUS_SUCCESS) := by
  have hsend : ∀ st inst mb (m : can_message_t), inst < CAN_INSTANCE_COUNT →
      st.initialized inst = false →
      CAN_Send st inst mb (some m) = (STATUS_NOT_INITIALIZED, []) := by
    intro st inst mb m h1 h2
    simp only [CAN_INSTANCE_COUNT] at h1
    simp only [CAN_Send, CAN_INSTANCE_COUNT]
    rw [if_neg (by omega), if_pos h2]
  refine ⟨?_, fun st inst mb m h1 h2 => by rw [hsend st inst mb m h1 h2],
    ?_, ?_, ?_, ?_, ?_, ?_, ?_⟩
  · intro st hw fb config s st2 hw2 heq hs
    cases config with
    | none => simp only [CAN_Init] at heq; cases heq; rfl
    | some cfg =>
      simp only [CAN_Init] at heq
      split at heq
      · cases heq; rfl
      · split at heq
        · split at heq
          · split at heq
            · split at heq
              · cases heq; exact absurd rfl hs
              · cases heq; rfl
            · cases heq; rfl
          · cases heq; rfl
        · cases heq; rfl
  · intro st hw inst mb m tmo h1 h2
    simp only [CAN_SendBlocking]
    rw [if_pos (by rw [hsend st inst mb m h1 h2]; decide)]
    rw [hsend st inst mb m h1 h2]
  · intro st hw inst mb m h1 h2
    simp only [CAN_INSTANCE_COUNT] at h1
    simp only [CAN_Receive, CAN_INSTANCE_COUNT]
    rw [if_neg (by omega), if_pos h2]
  · intro st hw inst mb m tmo h1 h2
    simp only [CAN_INSTANCE_COUNT] at h1
    simp only [CAN_ReceiveBlocking, CAN_INSTANCE_COUNT]
    rw [if_neg (by omega), if_pos h2]
  · intro st hw inst mb f h1 h2
    simp only [CAN_INSTANCE_COUNT] at h1
    simp only [CAN_ConfigRxFilter, CAN_INSTANCE_COUNT]
    rw [if_neg (by omega), if_pos h2]
  · intro st hw inst mb h1 h2
    simp only [CAN_INSTANCE_COUNT] at h1
    simp only [CAN_ConfigTxMailbox, CAN_INSTANCE_COUNT]
    rw [if_neg (by omega), if_pos h2]
  · intro st hw inst mb h1 h2 h3
    simp only [CAN_INSTANCE_COUNT, CAN_MB_COUNT] at h1 h2
    simp only [CAN_AbortTransmission, CAN_INSTANCE_COUNT, CAN_MB_COUNT]
    rw [if_neg (by omega)]
  · intro st hw inst mb h1 h2 h3
    simp only [CAN_INSTANCE_COUNT, CAN_MB_COUNT] at h1 h2
    simp only [CAN_IsMbBusy, CAN_INSTANCE_COUNT, CAN_MB_COUNT]
    rw [if_neg (by simp; omega)]

/-- Witness for the amended C6 at concrete inputs. -/
theorem C6_amended_not_initialized_witness :
    ((0 : Nat) < CAN_INSTANCE_COUNT ∧ st_noneInit.initialized 0 = false) ∧
    (CAN_Send st_noneInit 0 8 (some msg_zero)).1 = STATUS_NOT_INITIALIZED ∧
    (CAN_ConfigTxMailbox st_noneInit hw_zero 0 8).1 = STATUS_NOT_INITIALIZED ∧
    (CAN_AbortTransmission st_noneInit hw_zero 0 8).1 = STATUS_SUCCESS := by
  obtain ⟨_, hSend, _, _, _, _, hCfgTx, hAbort, _⟩ := C6_amended_not_initialized
  exact ⟨⟨by decide, by decide⟩,
    hSend st_noneInit 0 8 msg_zero (by decide) (by decide),
    hCfgTx st_noneInit hw_zero 0 8 (by decide) (by decide),
    hAbort st_noneInit hw_zero 0 8 (by decide) (by decide) (by decide)⟩

/--
Modelled from the spec: the hardware acceptance rule for individual-mask
mailbox filtering, which is hardware behaviour and not part of the driver
source — a mailbox accepts a received frame when the received ID word and
the configured ID word agree on every bit that is set in that mailbox's
individual mask register (can.h documents the intended semantics as
accepting when received id and filter id agree on the mask bits).
-/
def mbAccepts (cfgIdWord maskReg recvIdWord : Nat) : Bool :=
  (recvIdWord &&& maskReg) == (cfgIdWord &&& maskReg)

/--
Modelled from the spec: the mailbox ID word carried by a received
standard-ID frame — the 11-bit identifier occupies bits 18 to 28 of the
ID word (section 4.3 of the spec).
-/
def stdRecvIdWord (recvId : Nat) : Nat :=
  recvId <<< 18

/--
C9.  CAN_ConfigRxFilter with standard filter id 0x200 and mask 0x700
writes the filter id shifted to bits 18-28 of the mailbox ID word but
stores the 11-bit mask 0x700 unshifted in the individual mask register,
so the hardware compares only bits 8-10 of the ID words — which are zero
for every standard frame.  Under the stated hardware matching rule the
mailbox therefore accepts received standard id 0x300, although
(0x300 and 0x700) differs from (0x200 and 0x700) and the claim (and the
driver's own documentation) requires 0x300 to be rejected.
-/
theorem C9_rx_filter_mask_not_shifted :
    (CAN_ConfigRxFilter st_allInit hw_zero 0 16 (some ⟨0x200, 0x700, CAN_ID_STD⟩)).1 =
      STATUS_SUCCESS ∧
    (CAN_ConfigRxFilter st_allInit hw_zero 0 16 (some ⟨0x200, 0x700, CAN_ID_STD⟩)).2.rximr 16 =
      0x700 ∧
    mbAccepts
      ((CAN_ConfigRxFilter st_allInit hw_zero 0 16 (some ⟨0x200, 0x700, CAN_ID_STD⟩)).2.ram
        (16 * MSG_BUF_SIZE + 1))
      ((CAN_ConfigRxFilter st_allInit hw_zero 0 16 (some ⟨0x200, 0x700, CAN_ID_STD⟩)).2.rximr 16)
      (stdRecvIdWord 0x300) = true ∧
    (0x300 &&& 0x700) ≠ (0x200 &&& 0x700) := by
  refine ⟨by decide, by decide, by decide, by decide⟩

/-! ## Dispatcher lemmas -/

/-- A successful mailbox scan returns a pending index and every smaller
index in scanning range is not pending. -/
theorem scanFirst_some_spec (x : Nat) :
    ∀ fuel start mb, scanFirst x start fuel = some mb →
      x &&& (1 <<< mb) ≠ 0 ∧ start ≤ mb ∧ mb < start + fuel ∧
      ∀ j, start ≤ j → j < mb → x &&& (1 <<< j) = 0 := by
  intro fuel
  induction fuel with
  | zero => intro start mb h; simp [scanFirst] at h
  | succ n ih =>
    intro start mb h
    simp only [scanFirst] at h
    by_cases hb : x &&& (1 <<< start) ≠ 0
    · rw [if_pos hb] at h
      cases h
      exact ⟨hb, Nat.le_refl _, by omega, fun j hj1 hj2 => by omega⟩
    · rw [if_neg hb] at h
      obtain ⟨h1, h2, h3, h4⟩ := ih (start + 1) mb h
      refine ⟨h1, by omega, by omega, fun j hj1 hj2 => ?_⟩
      by_cases hj : j = start
      · rw [hj]; exact of_not_not hb
      · exact h4 j (by omega) hj2

/-- A failed mailbox scan means no index in scanning range is pending. -/
theorem scanFirst_none_spec (x : Nat) :
    ∀ fuel start, scanFirst x start fuel = none →
      ∀ j, start ≤ j → j < start + fuel → x &&& (1 <<< j) = 0 := by
  intro fuel
  induction fuel with
  | zero => intro start _ j h1 h2; omega
  | succ n ih =>
    intro start h j h1 h2
    simp only [scanFirst] at h
    by_cases hb : x &&& (1 <<< start) ≠ 0
    · rw [if_pos hb] at h; cases h
    · rw [if_neg hb] at h
      by_cases hj : j = start
      · rw [hj]; exact of_not_not hb
      · exact ih (start + 1) h j (by omega) (by omega)

/-- On a non-zero 32-bit pending mask the scan succeeds. -/
theorem scanFirst_total (x : Nat) (hne : x ≠ 0) (hlt : x < 2 ^ 32) :
    ∃ mb, scanFirst x 0 32 = some mb := by
  rcases hsc : scanFirst x 0 32 with _ | mb
  · exfalso
    obtain ⟨i, hi⟩ := Nat.ne_zero_implies_bit_true hne
    have hi32 : i < 32 := by
      by_contra hge
      have hfalse : x.testBit i = false :=
        Nat.testBit_lt_two_pow
          (lt_of_lt_of_le hlt (Nat.pow_le_pow_right (by norm_num) (by omega)))
      rw [hfalse] at hi
      cases hi
    have hz := scanFirst_none_spec x 32 0 hsc i (by omega) (by omega)
    rw [Nat.one_shiftLeft] at hz
    exact absurd hi (by rw [← and_two_pow_ne_zero] at hi ⊢; exact fun _ => absurd hz hi)
  · exact ⟨mb, rfl⟩

/-- Clearing one mailbox flag by the write-1-to-clear store leaves every
other flag bit unchanged. -/
theorem w1c_testBit_other (x mb j : Nat) (hmb : mb < 32) (hj : j < 32) (hne : j ≠ mb) :
    (w1cIflag1 x (1 <<< mb)).testBit j = x.testBit j := by
  have h1 : (1 <<< mb) &&& 0xFFFFFFFF = 2 ^ mb := by
    rw [Nat.one_shiftLeft]
    exact Nat.and_pow_two_sub_one_of_lt_two_pow (Nat.pow_lt_pow_right (by norm_num) hmb)
  simp only [w1cIflag1, h1]
  rw [Nat.testBit_and, Nat.testBit_xor]
  rw [show (0xFFFFFFFF : Nat) = 2 ^ 32 - 1 by norm_num,
    Nat.testBit_two_pow_sub_one, Nat.testBit_two_pow]
  simp [hj, Ne.symm hne]

/-- The write-1-to-clear store clears the targeted flag bit. -/
theorem w1c_testBit_self (x mb : Nat) (hmb : mb < 32) :
    (w1cIflag1 x (1 <<< mb)).testBit mb = false := by
  have h1 : (1 <<< mb) &&& 0xFFFFFFFF = 2 ^ mb := by
    rw [Nat.one_shiftLeft]
    exact Nat.and_pow_two_sub_one_of_lt_two_pow (Nat.pow_lt_pow_right (by norm_num) hmb)
  simp only [w1cIflag1, h1]
  rw [Nat.testBit_and, Nat.testBit_xor]
  rw [show (0xFFFFFFFF : Nat) = 2 ^ 32 - 1 by norm_num,
    Nat.testBit_two_pow_sub_one, Nat.testBit_two_pow]
  simp [hmb]

/--
C10.  When the base address is not one of the three known controllers or
no callback is registered for the instance, CAN_IRQHandler returns with
the hardware state unchanged, no callback invocation, and an empty
register-access trace: it reads no mailbox RAM, clears no pending flag
and writes no register, so pending flags remain set.
-/
theorem C10_dispatcher_no_callback (base : can_base_t) (cbs : Nat → Bool) (hw : CAN_Hw)
    (h : CAN_GetInstanceIndex base = 0xFF ∨ cbs (CAN_GetInstanceIndex base) = false) :
    CAN_IRQHandler base cbs hw = (hw, [], []) := by
  simp only [CAN_IRQHandler]
  rw [if_pos h]

/-- Witness for C10 at concrete inputs: an unknown base with a registered
callback, and a known base with no registered callback. -/
theorem C10_dispatcher_no_callback_witness :
    (CAN_GetInstanceIndex can_base_t.OTHER = 0xFF ∧
     (fun _ : Nat => false) (CAN_GetInstanceIndex can_base_t.CAN0) = false) ∧
    CAN_IRQHandler can_base_t.OTHER (fun _ => true) hw_zero = (hw_zero, [], []) ∧
    CAN_IRQHandler can_base_t.CAN0 (fun _ => false) hw_zero = (hw_zero, [], []) := by
  refine ⟨⟨by decide, by decide⟩, ?_, ?_⟩
  · exact C10_dispatcher_no_callback can_base_t.OTHER (fun _ => true) hw_zero
      (Or.inl (by decide))
  · exact C10_dispatcher_no_callback can_base_t.CAN0 (fun _ => false) hw_zero
      (Or.inr (by decide))

/--
C2.  On an invocation whose pending-bitmask read is non-zero (with a known
base and a registered callback), the dispatcher determines the
lowest-index pending mailbox mb, emits at most one callback event, leaves
the pending flag of every other mailbox unchanged, leaves every mailbox
RAM word other than mb's CS word unchanged, reads mailbox RAM only inside
mailbox mb, and every emitted event carries mailbox index mb.
-/
theorem C2_dispatcher_processes_lowest (base : can_base_t) (cbs : Nat → Bool) (hw : CAN_Hw)
    (hbase : CAN_GetInstanceIndex base ≠ 0xFF)
    (hcb : cbs (CAN_GetInstanceIndex base) = true)
    (hne : hw.iflag1 ≠ 0) (hlt : hw.iflag1 < 2 ^ 32) :
    ∃ mb, scanFirst hw.iflag1 0 32 = some mb ∧ mb < 32 ∧
      hw.iflag1.testBit mb = true ∧
      (∀ j < mb, hw.iflag1.testBit j = false) ∧
      (CAN_IRQHandler base cbs hw).2.1.length ≤ 1 ∧
      (∀ e ∈ (CAN_IRQHandler base cbs hw).2.1, e.2.mbIndex = mb) ∧
      (∀ j < 32, j ≠ mb →
        (CAN_IRQHandler base cbs hw).1.iflag1.testBit j = hw.iflag1.testBit j) ∧
      (∀ i, i ≠ mb * 4 → (CAN_IRQHandler base cbs hw).1.ram i = hw.ram i) ∧
      (∀ k, RegAccess.readRAMn k ∈ (CAN_IRQHandler base cbs hw).2.2 →
        mb * 4 ≤ k ∧ k ≤ mb * 4 + 3) := by
  obtain ⟨mb, hsc⟩ := scanFirst_total hw.iflag1 hne hlt
  obtain ⟨hpend, _, hmb32, hmin⟩ := scanFirst_some_spec hw.iflag1 32 0 mb hsc
  have htest : hw.iflag1.testBit mb = true := by
    rw [Nat.one_shiftLeft] at hpend
    exact (and_two_pow_ne_zero _ _).mp hpend
  have hmin' : ∀ j < mb, hw.iflag1.testBit j = false := by
    intro j hj
    have hz := hmin j (by omega) hj
    rw [Nat.one_shiftLeft] at hz
    cases hb : hw.iflag1.testBit j
    · rfl
    · exact absurd hz ((and_two_pow_ne_zero _ _).mpr hb)
  have hguard : ¬(CAN_GetInstanceIndex base = 0xFF ∨
      cbs (CAN_GetInstanceIndex base) = false) := by
    intro h
    rcases h with h | h
    · exact hbase h
    · rw [hcb] at h; cases h
  refine ⟨mb, hsc, by omega, htest, hmin', ?_⟩
  by_cases h8 : (hw.ram (mb * 4) &&& CAN_CS_CODE_MASK) >>> CAN_CS_CODE_SHIFT =
      CAN_CS_CODE_TX_INACTIVE
  · simp only [CAN_IRQHandler, hsc]
    rw [if_neg hguard, if_neg hne, if_pos h8]
    refine ⟨by simp, by simp, fun j hj hjne => w1c_testBit_other _ mb j (by omega) hj hjne,
      fun i _ => rfl, ?_⟩
    intro k hk
    simp only [List.mem_cons, List.not_mem_nil, or_false] at hk
    rcases hk with h | h | h <;> simp_all <;> omega
  · by_cases h2 : (hw.ram (mb * 4) &&& CAN_CS_CODE_MASK) >>> CAN_CS_CODE_SHIFT =
        CAN_CS_CODE_RX_FULL
    · simp only [CAN_IRQHandler, hsc]
      rw [if_neg hguard, if_neg hne, if_neg h8, if_pos h2]
      refine ⟨by simp, by simp, fun j hj hjne => w1c_testBit_other _ mb j (by omega) hj hjne,
        fun i hi => by simp only [updFun, if_neg hi], ?_⟩
      intro k hk
      simp only [List.mem_cons, List.not_mem_nil, or_false] at hk
      rcases hk with h | h | h | h | h | h | h <;> simp_all <;> omega
    · simp only [CAN_IRQHandler, hsc]
      rw [if_neg hguard, if_neg hne, if_neg h8, if_neg h2]
      refine ⟨by simp, by simp, fun j hj hjne => rfl, fun i _ => rfl, ?_⟩
      intro k hk
      simp only [List.mem_cons, List.not_mem_nil, or_false] at hk
      rcases hk with h | h <;> simp_all <;> omega

/-- Scenario state: mailbox flags 3 and 9 pending, mailbox 3 in RX-full
state, mailbox 9 in TX-inactive state. -/
def hw_c2 : CAN_Hw :=
  { hw_zero with
    iflag1 := (1 <<< 3) ||| (1 <<< 9)
    ram := fun i =>
      if i = 12 then CAN_CS_CODE_RX_FULL <<< CAN_CS_CODE_SHIFT
      else if i = 36 then CAN_CS_CODE_TX_INACTIVE <<< CAN_CS_CODE_SHIFT
      else 0 }

/-- Witness for C2 on the scenario state: mailbox 3 is processed, exactly
one RX-complete event is emitted, and mailbox 9's flag remains set. -/
theorem C2_dispatcher_processes_lowest_witness :
    (CAN_GetInstanceIndex can_base_t.CAN0 ≠ 0xFF ∧
     (fun _ : Nat => true) (CAN_GetInstanceIndex can_base_t.CAN0) = true ∧
     hw_c2.iflag1 ≠ 0 ∧ hw_c2.iflag1 < 2 ^ 32) ∧
    (∃ mb, scanFirst hw_c2.iflag1 0 32 = some mb ∧ mb < 32 ∧
      hw_c2.iflag1.testBit mb = true ∧
      (∀ j < mb, hw_c2.iflag1.testBit j = false) ∧
      (CAN_IRQHandler can_base_t.CAN0 (fun _ => true) hw_c2).2.1.length ≤ 1 ∧
      (∀ e ∈ (CAN_IRQHandler can_base_t.CAN0 (fun _ => true) hw_c2).2.1, e.2.mbIndex = mb) ∧
      (∀ j < 32, j ≠ mb →
        (CAN_IRQHandler can_base_t.CAN0 (fun _ => true) hw_c2).1.iflag1.testBit j =
          hw_c2.iflag1.testBit j) ∧
      (∀ i, i ≠ mb * 4 →
        (CAN_IRQHandler can_base_t.CAN0 (fun _ => true) hw_c2).1.ram i = hw_c2.ram i) ∧
      (∀ k, RegAccess.readRAMn k ∈ (CAN_IRQHandler can_base_t.CAN0 (fun _ => true) hw_c2).2.2 →
        mb * 4 ≤ k ∧ k ≤ mb * 4 + 3)) ∧
    (CAN_IRQHandler can_base_t.CAN0 (fun _ => true) hw_c2).2.1 =
      [(CAN_EVENT_RX_COMPLETE,
        { mbIndex := 3,
          message := some ⟨0, CAN_ID_STD, CAN_FRAME_DATA, 0, [0, 0, 0, 0, 0, 0, 0, 0]⟩ })] ∧
    (CAN_IRQHandler can_base_t.CAN0 (fun _ => true) hw_c2).1.iflag1.testBit 9 = true := by
  refine ⟨⟨by decide, by decide, by decide, by decide⟩, ?_, by decide, by decide⟩
  exact C2_dispatcher_processes_lowest can_base_t.CAN0 (fun _ => true) hw_c2
    (by decide) (by decide) (by decide) (by decide)

/-- Bits of the reactivated RX CS word below the CODE field, other than
IDE and RTR, are all clear. -/
theorem newCs_testBit_low (x j : Nat) (hj : j < 24) (h21 : j ≠ 21) (h20 : j ≠ 20) :
    ((4 <<< 24) ||| (x &&& 3145728)).testBit j = false := by
  rw [Nat.testBit_or, Nat.testBit_and]
  have e1 : (67108864 : Nat).testBit j = false := by
    rw [show (67108864 : Nat) = 2 ^ 26 by norm_num, Nat.testBit_two_pow]
    simp only [decide_eq_false_iff_not]
    omega
  have e2 : (3145728 : Nat).testBit j = false := by
    rw [show (3145728 : Nat) = 3 <<< 20 by decide, Nat.testBit_shiftLeft]
    by_cases h : 20 ≤ j
    · have h3 : (3 : Nat).testBit (j - 20) = false := by
        apply Nat.testBit_lt_two_pow
        calc (3 : Nat) < 2 ^ 2 := by norm_num
        _ ≤ 2 ^ (j - 20) := Nat.pow_le_pow_right (by norm_num) (by omega)
      simp [h, h3]
    · simp [h]
  simp [e1, e2]

/-- The reactivated RX CS word preserves the IDE bit of the read CS word. -/
theorem newCs_testBit_ide (x : Nat) :
    ((4 <<< 24) ||| (x &&& 3145728)).testBit 21 = x.testBit 21 := by
  rw [Nat.testBit_or, Nat.testBit_and]
  rw [show (4 <<< 24 : Nat).testBit 21 = false by decide,
    show (3145728 : Nat).testBit 21 = true by decide]
  simp

/-- The reactivated RX CS word preserves the RTR bit of the read CS word. -/
theorem newCs_testBit_rtr (x : Nat) :
    ((4 <<< 24) ||| (x &&& 3145728)).testBit 20 = x.testBit 20 := by
  rw [Nat.testBit_or, Nat.testBit_and]
  rw [show (4 <<< 24 : Nat).testBit 20 = false by decide,
    show (3145728 : Nat).testBit 20 = true by decide]
  simp

/-- Bits of the reactivated RX CS word above the CODE field are all clear. -/
theorem newCs_testBit_high (x j : Nat) (hj : 28 ≤ j) :
    ((4 <<< 24) ||| (x &&& 3145728)).testBit j = false := by
  rw [Nat.testBit_or, Nat.testBit_and]
  have e1 : (67108864 : Nat).testBit j = false := by
    rw [show (67108864 : Nat) = 2 ^ 26 by norm_num, Nat.testBit_two_pow]
    simp only [decide_eq_false_iff_not]
    omega
  have e2 : (3145728 : Nat).testBit j = false := by
    apply Nat.testBit_lt_two_pow
    calc (3145728 : Nat) < 2 ^ 22 := by norm_num
    _ ≤ 2 ^ j := Nat.pow_le_pow_right (by norm_num) (by omega)
  simp [e1, e2]

/-- The CODE field of the reactivated RX CS word is the RX-empty code. -/
theorem newCs_code (x : Nat) :
    (((4 <<< 24) ||| (x &&& 3145728)) &&& 0x0F000000) >>> 24 = 4 := by
  rw [Nat.and_distrib_right,
    show (4 <<< 24 : Nat) &&& 0x0F000000 = 0x04000000 by decide,
    Nat.and_assoc, show (3145728 : Nat) &&& 0x0F000000 = 0 by decide]
  simp

/--
C3.  When the lowest-index pending mailbox holds the RX-full code, the
dispatcher emits exactly one RX-complete event whose message has
dataLength equal to the mailbox's DLC field clamped to at most 8, clears
that mailbox's pending flag, and rewrites the mailbox CS word with the
RX-empty code while preserving exactly the IDE (bit 21) and RTR (bit 20)
bits of the CS word it read: the new CODE field is RX-empty, bits 21 and
20 equal those of the read CS word, and every other bit outside the CODE
field (bits 24-27) is clear.
-/
theorem C3_dispatcher_rx_reactivation (base : can_base_t) (cbs : Nat → Bool)
    (hw : CAN_Hw) (mb : Nat)
    (hbase : CAN_GetInstanceIndex base ≠ 0xFF)
    (hcb : cbs (CAN_GetInstanceIndex base) = true)
    (hne : hw.iflag1 ≠ 0)
    (hsc : scanFirst hw.iflag1 0 32 = some mb)
    (hcode : (hw.ram (mb * 4) &&& CAN_CS_CODE_MASK) >>> CAN_CS_CODE_SHIFT =
      CAN_CS_CODE_RX_FULL) :
    (∃ msg, (CAN_IRQHandler base cbs hw).2.1 =
        [(CAN_EVENT_RX_COMPLETE, { mbIndex := mb, message := some msg })] ∧
      msg.dataLength =
        min ((hw.ram (mb * 4) &&& CAN_WMBn_CS_DLC_MASK) >>> CAN_WMBn_CS_DLC_SHIFT) 8 ∧
      msg.dataLength ≤ 8) ∧
    (CAN_IRQHandler base cbs hw).1.iflag1.testBit mb = false ∧
    ((CAN_IRQHandler base cbs hw).1.ram (mb * 4) &&& CAN_CS_CODE_MASK) >>>
        CAN_CS_CODE_SHIFT = CAN_CS_CODE_RX_EMPTY ∧
    ((CAN_IRQHandler base cbs hw).1.ram (mb * 4)).testBit 21 =
      (hw.ram (mb * 4)).testBit 21 ∧
    ((CAN_IRQHandler base cbs hw).1.ram (mb * 4)).testBit 20 =
      (hw.ram (mb * 4)).testBit 20 ∧
    (∀ j < 24, j ≠ 21 → j ≠ 20 →
      ((CAN_IRQHandler base cbs hw).1.ram (mb * 4)).testBit j = false) ∧
    (∀ j, 28 ≤ j → ((CAN_IRQHandler base cbs hw).1.ram (mb * 4)).testBit j = false) := by
  obtain ⟨_, _, hmb32, _⟩ := scanFirst_some_spec hw.iflag1 32 0 mb hsc
  have hguard : ¬(CAN_GetInstanceIndex base = 0xFF ∨
      cbs (CAN_GetInstanceIndex base) = false) := by
    intro h
    rcases h with h | h
    · exact hbase h
    · rw [hcb] at h; cases h
  have h8 : ¬((hw.ram (mb * 4) &&& CAN_CS_CODE_MASK) >>> CAN_CS_CODE_SHIFT =
      CAN_CS_CODE_TX_INACTIVE) := by
    rw [hcode]; decide
  simp only [CAN_IRQHandler, hsc]
  rw [if_neg hguard, if_neg hne, if_neg h8, if_pos hcode]
  simp only [updFun, if_pos rfl, CAN_CS_CODE_RX_EMPTY, CAN_CS_CODE_SHIFT,
    CAN_WMBn_CS_IDE_MASK, CAN_WMBn_CS_RTR_MASK]
  rw [show (2097152 : Nat) ||| 1048576 = 3145728 by decide]
  refine ⟨⟨_, rfl, ?_, ?_⟩, w1c_testBit_self hw.iflag1 mb (by omega),
    newCs_code (hw.ram (mb * 4)), newCs_testBit_ide (hw.ram (mb * 4)),
    newCs_testBit_rtr (hw.ram (mb * 4)),
    fun j hj h21 h20 => newCs_testBit_low (hw.ram (mb * 4)) j hj h21 h20,
    fun j hj => newCs_testBit_high (hw.ram (mb * 4)) j hj⟩
  · show (if (hw.ram (mb * 4) &&& CAN_WMBn_CS_DLC_MASK) >>> CAN_WMBn_CS_DLC_SHIFT > 8 then 8
        else (hw.ram (mb * 4) &&& CAN_WMBn_CS_DLC_MASK) >>> CAN_WMBn_CS_DLC_SHIFT) =
      min ((hw.ram (mb * 4) &&& CAN_WMBn_CS_DLC_MASK) >>> CAN_WMBn_CS_DLC_SHIFT) 8
    rw [Nat.min_def]
    split <;> split <;> omega
  · show (if (hw.ram (mb * 4) &&& CAN_WMBn_CS_DLC_MASK) >>> CAN_WMBn_CS_DLC_SHIFT > 8 then 8
        else (hw.ram (mb * 4) &&& CAN_WMBn_CS_DLC_MASK) >>> CAN_WMBn_CS_DLC_SHIFT) ≤ 8
    split <;> omega

/-- Witness for C3 on the scenario state (mailbox 3 RX-full). -/
theorem C3_dispatcher_rx_reactivation_witness :
    (CAN_GetInstanceIndex can_base_t.CAN0 ≠ 0xFF ∧
     (fun _ : Nat => true) (CAN_GetInstanceIndex can_base_t.CAN0) = true ∧
     hw_c2.iflag1 ≠ 0 ∧ scanFirst hw_c2.iflag1 0 32 = some 3 ∧
     (hw_c2.ram (3 * 4) &&& CAN_CS_CODE_MASK) >>> CAN_CS_CODE_SHIFT =
       CAN_CS_CODE_RX_FULL) ∧
    ((∃ msg, (CAN_IRQHandler can_base_t.CAN0 (fun _ => true) hw_c2).2.1 =
        [(CAN_EVENT_RX_COMPLETE, { mbIndex := 3, message := some msg })] ∧
      msg.dataLength =
        min ((hw_c2.ram (3 * 4) &&& CAN_WMBn_CS_DLC_MASK) >>> CAN_WMBn_CS_DLC_SHIFT) 8 ∧
      msg.dataLength ≤ 8) ∧
    (CAN_IRQHandler can_base_t.CAN0 (fun _ => true) hw_c2).1.iflag1.testBit 3 = false ∧
    ((CAN_IRQHandler can_base_t.CAN0 (fun _ => true) hw_c2).1.ram (3 * 4) &&&
        CAN_CS_CODE_MASK) >>> CAN_CS_CODE_SHIFT = CAN_CS_CODE_RX_EMPTY ∧
    ((CAN_IRQHandler can_base_t.CAN0 (fun _ => true) hw_c2).1.ram (3 * 4)).testBit 21 =
      (hw_c2.ram (3 * 4)).testBit 21 ∧
    ((CAN_IRQHandler can_base_t.CAN0 (fun _ => true) hw_c2).1.ram (3 * 4)).testBit 20 =
      (hw_c2.ram (3 * 4)).testBit 20 ∧
    (∀ j < 24, j ≠ 21 → j ≠ 20 →
      ((CAN_IRQHandler can_base_t.CAN0 (fun _ => true) hw_c2).1.ram (3 * 4)).testBit j =
        false) ∧
    (∀ j, 28 ≤ j →
      ((CAN_IRQHandler can_base_t.CAN0 (fun _ => true) hw_c2).1.ram (3 * 4)).testBit j =
        false)) := by
  refine ⟨⟨by decide, by decide, by decide, by decide, by decide⟩, ?_⟩
  exact C3_dispatcher_rx_reactivation can_base_t.CAN0 (fun _ => true) hw_c2 3
    (by decide) (by decide) (by decide) (by decide) (by decide)

end CanDriver
